import Mathlib

/-!
# Function.h : a type-erased callable container with a small inline buffer

A shallow embedding of `FunctionBase<IsMoveOnly, ReturnType(Args...)>` from
`src/Function.h`, followed by theorems about it.

The C++ object graph is made explicit:

* a container is addressed by a number `c`; its three pointer members live in
  `Memory.fn c` and its 16-byte `buffer` member in `Memory.buffer c`;
* storage (an inline buffer or a heap block) either holds a live object, given by
  its concrete type and its captured state, or holds no object;
* `operator new` hands out the blocks `0, 1, 2, ...` in order, so a new block is
  never one that was handed out before;
* a concrete callable type is a number (its `typeid`), described by a `TypeEnv`;
  a pointer to a function template instantiated at `F` is `some F`, a null function
  pointer is `none`;
* every constructor call, destructor call, allocation, deallocation and entry into
  `Destroy<F>` is appended to `Memory.trace`;
* an operation returns `Except Fault _`: `bad_function_call` is the exception thrown by
  `operator()`, `constraint_not_satisfied` a call that a `requires` clause rejects,
  and the remaining faults are the places where the C++ has undefined behaviour.
-/

namespace FunctionH

/-- The capacity of the inline buffer: `BUFFER_SIZE` (Function.h:147). -/
def BUFFER_SIZE : Nat := 16

/-- An argument tuple `Args...`. -/
abbrev Args := List Int

/-- The result type of the signature. -/
abbrev ReturnType := Int

/-- The captured state of a callable object. -/
abbrev Bytes := List Int

/-- A `void*`: null, the address of the `buffer` member of container `c`, or the
address of the heap block `a`. -/
inductive Ptr where
  | null
  | buffer (c : Nat)
  | heap (a : Nat)
  deriving DecidableEq, Repr

/-- A live object: its concrete type and its captured state. -/
structure Obj where
  tid : Nat
  val : Bytes
  deriving DecidableEq, Repr

/-- What the container needs to know of a concrete (decayed) callable type `F`. Copy
construction of `F` reproduces the captured state; move construction reproduces it in
the new object and leaves `moved_from` of it in the old one. -/
structure Callable where
  /-- The value of `sizeof(F)`. -/
  size : Nat
  /-- The value of `std::is_copy_constructible<F>`. -/
  copy_constructible : Bool
  /-- The effect of `std::invoke(f, args...)`: the result and the captured state afterwards. -/
  call : Bytes → Args → ReturnType × Bytes
  /-- The state that the move constructor of `F` leaves in its argument. -/
  moved_from : Bytes → Bytes
  /-- The converting constructor `F(void*)`, which `Assignment<F>` calls when
  `sizeof(F) > BUFFER_SIZE` (Function.h:236): the state it builds from the pointer, given
  what the memory holds at each pointer. A larger type without such a constructor cannot
  be stored at all, since `Assignment<F>` is instantiated with every table. -/
  from_void_ptr : (Ptr → Option Obj) → Ptr → Bytes

/-- The concrete callable types of a program, indexed by `typeid`. -/
abbrev TypeEnv := Nat → Callable

/-- The form of the argument expression of the forwarding constructor, which fixes the
deduced `F` of `FunctionBase(F&&)` among the types that decay to one concrete type `T`:
an lvalue of type cv `T` gives `F` = cv `T&`, an rvalue gives `F` = cv `T`, for each of
the four cv-qualifications, and a function lvalue gives `F = R(&)(Args...)`, which decays
to the pointer type `R(*)(Args...)`. -/
inductive ValueCategory where
  /-- The deduced type `T&`. -/
  | lvalue
  /-- The deduced type `const T&`. -/
  | const_lvalue
  /-- The deduced type `T`. -/
  | rvalue
  /-- The deduced type `const T`. -/
  | const_rvalue
  /-- The deduced type `volatile T&`. -/
  | volatile_lvalue
  /-- The deduced type `const volatile T&`. -/
  | const_volatile_lvalue
  /-- The deduced type `volatile T`. -/
  | volatile_rvalue
  /-- The deduced type `const volatile T`. -/
  | const_volatile_rvalue
  /-- The deduced type `R(&)(Args...)` of a function lvalue, where `T` is `R(*)(Args...)`. -/
  | function_lvalue
  deriving DecidableEq, Repr

/-- The address of the function-local `static ManageBlock manage_block` of
`CreateManageBlock<F>` (Function.h:186-190): one static per deduced `F`, that is per
form of the argument expression and decayed type. -/
structure BlockAddr where
  cat : ValueCategory
  tid : Nat
  deriving DecidableEq, Repr

/-- The operation table `struct ManageBlock` (Function.h:159-184); `some F` is the
instantiation of the member template at `F`. -/
structure ManageBlock where
  copy_from_to : Option Nat
  copy_assignment_from_to : Option Nat
  move_from_to : Option Nat
  move_assignment_from_to : Option Nat
  destroy : Option Nat
  get_type : Option Nat
  deriving DecidableEq, Repr

/-- The two constructors of `ManageBlock` (Function.h:160-176), selected by `IsMoveOnly`;
`tid` is `std::decay_t<F>`. -/
def ManageBlock.ctor (IsMoveOnly : Bool) (tid : Nat) : ManageBlock :=
  if IsMoveOnly then
    { copy_from_to := none, copy_assignment_from_to := none,
      move_from_to := some tid, move_assignment_from_to := some tid,
      destroy := some tid, get_type := some tid }
  else
    { copy_from_to := some tid, copy_assignment_from_to := some tid,
      move_from_to := some tid, move_assignment_from_to := some tid,
      destroy := some tid, get_type := some tid }

/-- The function `CreateManageBlock<F>` (Function.h:186-190): the address of the static of
this instantiation. -/
def CreateManageBlock (cat : ValueCategory) (tid : Nat) : BlockAddr :=
  { cat := cat, tid := tid }

/-- The table found at a block address: the static was initialised by the `ManageBlock`
constructor and is never written afterwards. -/
def BlockAddr.deref (IsMoveOnly : Bool) (b : BlockAddr) : ManageBlock :=
  ManageBlock.ctor IsMoveOnly b.tid

/-- The pointer members of a `FunctionBase` (Function.h:149, 192, 193). -/
structure FunctionBase where
  function_pointer : Ptr
  invoke_pointer : Option Nat
  manage_block_pointer : Option BlockAddr
  deriving DecidableEq, Repr

/-- What is recorded of an execution. -/
inductive Event where
  /-- The call `operator new` returned block `a`. -/
  | allocate (a : Nat)
  /-- The call `operator delete` released block `a`. -/
  | deallocate (a : Nat)
  /-- A constructor of type `tid` created an object at `p`. -/
  | construct (p : Ptr) (tid : Nat)
  /-- The destructor of type `tid` ran on the storage at `p`. -/
  | destruct (p : Ptr) (tid : Nat)
  /-- The table entry `destroy`, bound to `Destroy<tid>`, was called with `p`. -/
  | destroy_call (tid : Nat) (p : Ptr)
  deriving DecidableEq, Repr

/-- How an operation can fail to return. -/
inductive Fault where
  /-- The exception `std::bad_function_call`. -/
  | bad_function_call
  /-- A `requires` clause rejects the call: it does not compile. -/
  | constraint_not_satisfied
  /-- Undefined behaviour: a call through a null function pointer or a null table. -/
  | null_call
  /-- Undefined behaviour: storage is used as an object of a type of which it holds no
  live object. -/
  | no_object
  /-- Undefined behaviour: `delete` of a pointer that `new` did not return. -/
  | bad_delete
  deriving DecidableEq, Repr

/-- The program state. -/
structure Memory where
  /-- The pointer members of each container. -/
  fn : Nat → FunctionBase
  /-- The contents of each container's `buffer` member. -/
  buffer : Nat → Option Obj
  /-- The heap blocks handed out so far, in order. -/
  heap : List (Option Obj)
  /-- The events so far, oldest first. -/
  trace : List Event

/-- The state before anything has been constructed. -/
def Memory.init : Memory :=
  { fn := fun _ => ⟨Ptr.null, none, none⟩, buffer := fun _ => none, heap := [], trace := [] }

/-- The live object at a pointer, if any. -/
def Memory.load (s : Memory) : Ptr → Option Obj
  | Ptr.null => none
  | Ptr.buffer c => s.buffer c
  | Ptr.heap a => s.heap.getD a none

/-- Overwrite the storage at a pointer. -/
def Memory.store (s : Memory) (p : Ptr) (o : Option Obj) : Memory :=
  match p with
  | Ptr.null => s
  | Ptr.buffer c => { s with buffer := Function.update s.buffer c o }
  | Ptr.heap a => { s with heap := s.heap.set a o }

/-- Append an event. -/
def Memory.log (s : Memory) (e : Event) : Memory :=
  { s with trace := s.trace ++ [e] }

/-- Assign member `function_pointer` of container `c`. -/
def Memory.set_function_pointer (s : Memory) (c : Nat) (p : Ptr) : Memory :=
  { s with fn := Function.update s.fn c { s.fn c with function_pointer := p } }

/-- Assign member `invoke_pointer` of container `c`. -/
def Memory.set_invoke_pointer (s : Memory) (c : Nat) (i : Option Nat) : Memory :=
  { s with fn := Function.update s.fn c { s.fn c with invoke_pointer := i } }

/-- Assign member `manage_block_pointer` of container `c`. -/
def Memory.set_manage_block_pointer (s : Memory) (c : Nat) (m : Option BlockAddr) : Memory :=
  { s with fn := Function.update s.fn c { s.fn c with manage_block_pointer := m } }

/-- The expression `*reinterpret_cast<F*>(p)` read as a value of type `tid`. -/
def deref (s : Memory) (tid : Nat) (p : Ptr) : Except Fault Bytes :=
  match s.load p with
  | some o => if o.tid = tid then Except.ok o.val else Except.error Fault.no_object
  | none => Except.error Fault.no_object

/-- The expression `new (p) F(v)`: an object of type `tid` is created at `p`. -/
def placement_new (s : Memory) (p : Ptr) (tid : Nat) (v : Bytes) : Memory :=
  (s.store p (some ⟨tid, v⟩)).log (Event.construct p tid)

/-- The expression `new F(v)`: the next block is handed out and an object of type `tid` is
created in it. -/
def operator_new (s : Memory) (tid : Nat) (v : Bytes) : Ptr × Memory :=
  (Ptr.heap s.heap.length,
    { s with heap := s.heap ++ [some ⟨tid, v⟩],
             trace := s.trace ++ [Event.allocate s.heap.length,
                                  Event.construct (Ptr.heap s.heap.length) tid] })

/-- The argument `std::move(*reinterpret_cast<F*>(p))` consumed by the move constructor
of `tid`: the state read, and the memory with the moved-from object left at `p`. -/
def move_out (Γ : TypeEnv) (s : Memory) (tid : Nat) (p : Ptr) : Except Fault (Bytes × Memory) :=
  match deref s tid p with
  | Except.ok v => Except.ok (v, s.store p (some ⟨tid, (Γ tid).moved_from v⟩))
  | Except.error e => Except.error e

/-- The expression `reinterpret_cast<F*>(p)->~F()`. -/
def destruct (s : Memory) (tid : Nat) (p : Ptr) : Except Fault Memory :=
  match deref s tid p with
  | Except.ok _ => Except.ok ((s.store p none).log (Event.destruct p tid))
  | Except.error e => Except.error e

/-- The expression `delete reinterpret_cast<F*>(p)`. -/
def operator_delete (s : Memory) (tid : Nat) (p : Ptr) : Except Fault Memory :=
  match p with
  | Ptr.null => Except.ok s
  | Ptr.buffer _ => Except.error Fault.bad_delete
  | Ptr.heap a =>
    match destruct s tid (Ptr.heap a) with
    | Except.ok s1 => Except.ok (s1.log (Event.deallocate a))
    | Except.error e => Except.error e

/-- The function `Invoke<F>` (Function.h:196-199). -/
def Invoke (Γ : TypeEnv) (tid : Nat) (s : Memory) (p : Ptr) (args : Args) :
    Except Fault (ReturnType × Memory) :=
  match deref s tid p with
  | Except.ok v =>
    Except.ok (((Γ tid).call v args).1, s.store p (some ⟨tid, ((Γ tid).call v args).2⟩))
  | Except.error e => Except.error e

/-- The function `CopyOrMove<F, IsCopy>` (Function.h:201-220). -/
def CopyOrMove (Γ : TypeEnv) (tid : Nat) (IsCopy : Bool) (s : Memory) (source destination : Nat) :
    Except Fault Memory :=
  if (Γ tid).size > BUFFER_SIZE then
    if IsCopy then
      match deref s tid (s.fn source).function_pointer with
      | Except.ok v =>
        Except.ok ((operator_new s tid v).2.set_function_pointer destination (operator_new s tid v).1)
      | Except.error e => Except.error e
    else
      Except.ok ((s.set_function_pointer destination (s.fn source).function_pointer).set_function_pointer
        source Ptr.null)
  else
    if IsCopy then
      match deref s tid (s.fn source).function_pointer with
      | Except.ok v =>
        Except.ok ((placement_new s (Ptr.buffer destination) tid v).set_function_pointer destination
          (Ptr.buffer destination))
      | Except.error e => Except.error e
    else
      match move_out Γ s tid (s.fn source).function_pointer with
      | Except.ok (v, s1) =>
        match destruct (placement_new s1 (Ptr.buffer destination) tid v) tid (Ptr.buffer source) with
        | Except.ok s2 =>
          Except.ok ((s2.set_function_pointer source Ptr.null).set_function_pointer destination
            (Ptr.buffer destination))
        | Except.error e => Except.error e
      | Except.error e => Except.error e

/-- The function `Copy<F>` (Function.h:222-225). -/
def Copy (Γ : TypeEnv) (tid : Nat) (s : Memory) (source destination : Nat) : Except Fault Memory :=
  CopyOrMove Γ tid true s source destination

/-- The function `Move<F>` (Function.h:227-230). -/
def Move (Γ : TypeEnv) (tid : Nat) (s : Memory) (source destination : Nat) : Except Fault Memory :=
  CopyOrMove Γ tid false s source destination

/-- The function `Assignment<F, IsCopy>` (Function.h:232-246). -/
def Assignment (Γ : TypeEnv) (tid : Nat) (IsCopy : Bool) (s : Memory) (source destination : Nat) :
    Except Fault Memory :=
  if (Γ tid).size > BUFFER_SIZE then
    match operator_delete s tid (s.fn destination).function_pointer with
    | Except.ok s1 =>
      Except.ok ((operator_new s1 tid
          ((Γ tid).from_void_ptr s1.load (s1.fn source).function_pointer)).2.set_function_pointer
        destination
        (operator_new s1 tid ((Γ tid).from_void_ptr s1.load (s1.fn source).function_pointer)).1)
    | Except.error e => Except.error e
  else
    match destruct s tid (Ptr.buffer destination) with
    | Except.ok s1 =>
      if IsCopy then
        match deref s1 tid (Ptr.buffer source) with
        | Except.ok v =>
          Except.ok ((placement_new s1 (Ptr.buffer destination) tid v).set_function_pointer destination
            (Ptr.buffer destination))
        | Except.error e => Except.error e
      else
        match move_out Γ s1 tid (Ptr.buffer source) with
        | Except.ok (v, s2) =>
          Except.ok ((placement_new s2 (Ptr.buffer destination) tid v).set_function_pointer destination
            (Ptr.buffer destination))
        | Except.error e => Except.error e
    | Except.error e => Except.error e

/-- The function `CopyAssignment<F>` (Function.h:248-251). -/
def CopyAssignment (Γ : TypeEnv) (tid : Nat) (s : Memory) (source destination : Nat) :
    Except Fault Memory :=
  Assignment Γ tid true s source destination

/-- The function `MoveAssignment<F>` (Function.h:253-256). -/
def MoveAssignment (Γ : TypeEnv) (tid : Nat) (s : Memory) (source destination : Nat) :
    Except Fault Memory :=
  Assignment Γ tid false s source destination

/-- The function `Destroy<F>` (Function.h:258-265). -/
def Destroy (Γ : TypeEnv) (tid : Nat) (s : Memory) (p : Ptr) : Except Fault Memory :=
  if (Γ tid).size > BUFFER_SIZE then
    operator_delete (s.log (Event.destroy_call tid p)) tid p
  else
    destruct (s.log (Event.destroy_call tid p)) tid p

/-- The function `GetType<F>` (Function.h:267-270): the `typeid` of `F`. -/
def GetType (tid : Nat) : Nat := tid

/-- A call through a table entry of the type of `Copy`, `Move`, `CopyAssignment` or
`MoveAssignment`; a null entry cannot be called. -/
def call_entry (f : Nat → Memory → Nat → Nat → Except Fault Memory) (entry : Option Nat)
    (s : Memory) (source destination : Nat) : Except Fault Memory :=
  match entry with
  | some tid => f tid s source destination
  | none => Except.error Fault.null_call

/-- A call `manage_block_pointer->destroy(p)`. -/
def call_destroy (Γ : TypeEnv) (entry : Option Nat) (s : Memory) (p : Ptr) : Except Fault Memory :=
  match entry with
  | some tid => Destroy Γ tid s p
  | none => Except.error Fault.null_call

/-- The `requires` clause of the forwarding constructor and of the forwarding assignment
(Function.h:18-22, 73-77): on the copy-capable variant the type must be copy
constructible. Invocability with the signature holds of every type of a `TypeEnv`. -/
def accepts (Γ : TypeEnv) (IsMoveOnly : Bool) (tid : Nat) : Bool :=
  IsMoveOnly || (Γ tid).copy_constructible

namespace FunctionBase

/-- The constructor `FunctionBase()` (Function.h:14): the default member initialisers. -/
def ctor_default (s : Memory) (this : Nat) : Memory :=
  { s with fn := Function.update s.fn this ⟨Ptr.null, none, none⟩ }

/-- The constructor `FunctionBase(std::nullptr_t)` (Function.h:15). -/
def ctor_nullptr (s : Memory) (this : Nat) : Memory :=
  { s with fn := Function.update s.fn this ⟨Ptr.null, none, none⟩ }

/-- The body shared by `FunctionBase(F&&)` (Function.h:25-30) and `operator=(F&&)`
(Function.h:85-90): the value is placed on the heap or in the buffer. -/
def place (Γ : TypeEnv) (s : Memory) (this : Nat) (tid : Nat) (v : Bytes) : Memory :=
  if (Γ tid).size > BUFFER_SIZE then
    (operator_new s tid v).2.set_function_pointer this (operator_new s tid v).1
  else
    (placement_new s (Ptr.buffer this) tid v).set_function_pointer this (Ptr.buffer this)

/-- The constructor `FunctionBase(F&& function)` (Function.h:17-31), called with a callable
of type `tid` and captured state `v`. -/
def ctor_value (Γ : TypeEnv) (IsMoveOnly : Bool) (s : Memory) (this : Nat)
    (cat : ValueCategory) (tid : Nat) (v : Bytes) : Except Fault Memory :=
  if accepts Γ IsMoveOnly tid then
    Except.ok (place Γ
      { s with fn := Function.update s.fn this ⟨Ptr.null, some tid, some (CreateManageBlock cat tid)⟩ }
      this tid v)
  else Except.error Fault.constraint_not_satisfied

/-- The copy constructor (Function.h:33-39). -/
def ctor_copy (Γ : TypeEnv) (IsMoveOnly : Bool) (s : Memory) (other this : Nat) :
    Except Fault Memory :=
  if IsMoveOnly then Except.error Fault.constraint_not_satisfied
  else
    let s1 : Memory :=
      { s with fn := Function.update s.fn this (FunctionBase.mk Ptr.null
          (s.fn other).invoke_pointer (s.fn other).manage_block_pointer) }
    match (s1.fn this).manage_block_pointer with
    | some b => call_entry (Copy Γ) (b.deref IsMoveOnly).copy_from_to s1 other this
    | none => Except.ok s1

/-- The move constructor (Function.h:41-48). -/
def ctor_move (Γ : TypeEnv) (IsMoveOnly : Bool) (s : Memory) (other this : Nat) :
    Except Fault Memory :=
  let s1 : Memory :=
    { s with fn := Function.update s.fn this (FunctionBase.mk Ptr.null
        (s.fn other).invoke_pointer (s.fn other).manage_block_pointer) }
  match
    (match (s1.fn this).manage_block_pointer with
     | some b => call_entry (Move Γ) (b.deref IsMoveOnly).move_from_to s1 other this
     | none => Except.ok s1) with
  | Except.ok s2 =>
    Except.ok ((s2.set_invoke_pointer other none).set_manage_block_pointer other none)
  | Except.error e => Except.error e

/-- The copy assignment operator (Function.h:50-58). -/
def assign_copy (Γ : TypeEnv) (IsMoveOnly : Bool) (s : Memory) (this other : Nat) :
    Except Fault Memory :=
  if IsMoveOnly then Except.error Fault.constraint_not_satisfied
  else
    let s1 := s.set_manage_block_pointer this (s.fn other).manage_block_pointer
    match
      (match (s1.fn this).manage_block_pointer with
       | some b => call_entry (CopyAssignment Γ) (b.deref IsMoveOnly).copy_assignment_from_to s1 other this
       | none => Except.ok s1) with
    | Except.ok s2 => Except.ok (s2.set_invoke_pointer this (s2.fn other).invoke_pointer)
    | Except.error e => Except.error e

/-- The move assignment operator (Function.h:60-70). -/
def assign_move (Γ : TypeEnv) (IsMoveOnly : Bool) (s : Memory) (this other : Nat) :
    Except Fault Memory :=
  let s1 := s.set_manage_block_pointer this (s.fn other).manage_block_pointer
  match
    (match (s1.fn this).manage_block_pointer with
     | some b => call_entry (MoveAssignment Γ) (b.deref IsMoveOnly).move_assignment_from_to s1 other this
     | none => Except.ok s1) with
  | Except.ok s2 =>
    Except.ok ((((s2.set_invoke_pointer this (s2.fn other).invoke_pointer).set_manage_block_pointer
      other none).set_function_pointer other Ptr.null).set_invoke_pointer other none)
  | Except.error e => Except.error e

/-- The forwarding assignment `operator=(F&& function)` (Function.h:72-92). -/
def assign_value (Γ : TypeEnv) (IsMoveOnly : Bool) (s : Memory) (this : Nat)
    (cat : ValueCategory) (tid : Nat) (v : Bytes) : Except Fault Memory :=
  if accepts Γ IsMoveOnly tid then
    match
      (match (s.fn this).manage_block_pointer with
       | some b => call_destroy Γ (b.deref IsMoveOnly).destroy s (s.fn this).function_pointer
       | none => Except.ok s) with
    | Except.ok s1 =>
      Except.ok (place Γ
        ((s1.set_manage_block_pointer this (some (CreateManageBlock cat tid))).set_invoke_pointer
          this (some tid))
        this tid v)
    | Except.error e => Except.error e
  else Except.error Fault.constraint_not_satisfied

/-- The value category of the expression `wrapper.get()` of a `std::reference_wrapper<F>`:
an lvalue of type `F`, const-qualified when `F` is. -/
def lvalue_category (is_const : Bool) : ValueCategory :=
  if is_const then ValueCategory.const_lvalue else ValueCategory.lvalue

/-- The assignment `operator=(std::reference_wrapper<F> wrapper)` (Function.h:94-97), whose
body is `return operator=(wrapper.get())`: the referent has decayed type `tid` and captured
state `v`, and `is_const` tells whether `F` is const-qualified. -/
def assign_reference_wrapper (Γ : TypeEnv) (IsMoveOnly : Bool) (s : Memory) (this : Nat)
    (is_const : Bool) (tid : Nat) (v : Bytes) : Except Fault Memory :=
  assign_value Γ IsMoveOnly s this (lvalue_category is_const) tid v

/-- The destructor (Function.h:99-103). -/
def dtor (Γ : TypeEnv) (IsMoveOnly : Bool) (s : Memory) (this : Nat) : Except Fault Memory :=
  match (s.fn this).manage_block_pointer with
  | some b => call_destroy Γ (b.deref IsMoveOnly).destroy s (s.fn this).function_pointer
  | none => Except.ok s

/-- The call operator (Function.h:105-110): the result and the memory after the call. -/
def call (Γ : TypeEnv) (s : Memory) (this : Nat) (args : Args) :
    Except Fault (ReturnType × Memory) :=
  if (s.fn this).function_pointer = Ptr.null then Except.error Fault.bad_function_call
  else
    match (s.fn this).invoke_pointer with
    | some tid => Invoke Γ tid s (s.fn this).function_pointer args
    | none => Except.error Fault.null_call

/-- The member `target<F>()` (Function.h:112-120). -/
def target (s : Memory) (this : Nat) : Ptr :=
  (s.fn this).function_pointer

/-- The member `target_type()` (Function.h:122-124). -/
def target_type (IsMoveOnly : Bool) (s : Memory) (this : Nat) : Except Fault Nat :=
  match (s.fn this).manage_block_pointer with
  | some b =>
    match (b.deref IsMoveOnly).get_type with
    | some tid => Except.ok (GetType tid)
    | none => Except.error Fault.null_call
  | none => Except.error Fault.null_call

/-- The conversion `explicit operator bool()` (Function.h:126-128). -/
def to_bool (s : Memory) (this : Nat) : Bool :=
  decide ((s.fn this).function_pointer ≠ Ptr.null)

/-- The member `operator==(nullptr_t)` (Function.h:130-132). -/
def eq_nullptr (s : Memory) (this : Nat) : Bool :=
  decide ((s.fn this).function_pointer = Ptr.null)

/-- The member `operator!=(nullptr_t)` (Function.h:134-136). -/
def ne_nullptr (s : Memory) (this : Nat) : Bool :=
  !(eq_nullptr s this)

/-- The friend `operator==(nullptr_t, const FunctionBase&)` (Function.h:138-140). -/
def nullptr_eq (s : Memory) (function : Nat) : Bool :=
  decide ((s.fn function).function_pointer = Ptr.null)

/-- The friend `operator!=(nullptr_t, const FunctionBase&)` (Function.h:142-144). -/
def nullptr_ne (s : Memory) (function : Nat) : Bool :=
  decide ((s.fn function).function_pointer ≠ Ptr.null)

end FunctionBase

end FunctionH

namespace FunctionH

/-! ## A small program environment, used to run the operations on concrete inputs -/

/-- A callable that captures the integers `v` and returns their sum plus the sum of its
arguments; calling it does not change what it captured. -/
def adder (size : Nat) : Callable :=
  { size := size, copy_constructible := true,
    call := fun v args => (v.sum + args.sum, v),
    moved_from := fun _ => [],
    from_void_ptr := fun _ _ => [] }

/-- A callable that captures a counter: it returns the counter and increments it. -/
def counter (size : Nat) : Callable :=
  { size := size, copy_constructible := true,
    call := fun v _ => (v.sum, [v.sum + 1]),
    moved_from := fun v => v,
    from_void_ptr := fun _ _ => [0] }

/-- Four concrete types: `0` an adder of 8 bytes, `1` an adder of 16 bytes, `2` an adder
of 17 bytes, and every other `typeid` a counter of 40 bytes. -/
def demo : TypeEnv := fun tid =>
  match tid with
  | 0 => adder 8
  | 1 => adder 16
  | 2 => adder 17
  | _ => counter 40

end FunctionH

namespace FunctionH

/-! ## Well-formed containers -/

/-- Whether a pointer is the address of a heap block. -/
def Ptr.is_heap : Ptr → Bool
  | Ptr.heap _ => true
  | _ => false

/-- Container `c` is empty: all three pointer members are null. -/
def Empty (s : Memory) (c : Nat) : Prop :=
  s.fn c = ⟨Ptr.null, none, none⟩

/-- Container `c` holds a live value of concrete type `tid` with captured state `v`, bound
to the table that the forwarding constructor obtains for value category `cat`: the
invocation entry and the table are those of `tid`, the active pointer refers to a live
object of type `tid`, and that storage is a heap block when `sizeof` exceeds the buffer
and the container's own buffer otherwise. -/
def Holds (Γ : TypeEnv) (s : Memory) (c : Nat) (cat : ValueCategory) (tid : Nat) (v : Bytes) :
    Prop :=
  (s.fn c).invoke_pointer = some tid ∧
  (s.fn c).manage_block_pointer = some (CreateManageBlock cat tid) ∧
  s.load (s.fn c).function_pointer = some ⟨tid, v⟩ ∧
  (if (Γ tid).size > BUFFER_SIZE then (s.fn c).function_pointer.is_heap = true
   else (s.fn c).function_pointer = Ptr.buffer c)

/-- Container `c` stores its value inline: the active pointer is its own buffer. -/
def stored_inline (s : Memory) (c : Nat) : Prop :=
  (s.fn c).function_pointer = Ptr.buffer c

/-- The number of heap allocations in a trace. -/
def allocations (t : List Event) : Nat :=
  (t.filter fun e => match e with | Event.allocate _ => true | _ => false).length

/-- The number of heap deallocations in a trace. -/
def deallocations (t : List Event) : Nat :=
  (t.filter fun e => match e with | Event.deallocate _ => true | _ => false).length

/-- The number of objects created in a trace. -/
def constructions (t : List Event) : Nat :=
  (t.filter fun e => match e with | Event.construct _ _ => true | _ => false).length

/-- The number of destructor runs in a trace. -/
def destructions (t : List Event) : Nat :=
  (t.filter fun e => match e with | Event.destruct _ _ => true | _ => false).length

/-- The number of calls of a table's destroy entry in a trace. -/
def destroy_calls (t : List Event) : Nat :=
  (t.filter fun e => match e with | Event.destroy_call _ _ => true | _ => false).length

/-- The result of a call, without the memory after it. -/
def result_of (r : Except Fault (ReturnType × Memory)) : Except Fault ReturnType :=
  match r with
  | Except.ok (x, _) => Except.ok x
  | Except.error e => Except.error e

end FunctionH

namespace FunctionH

/-! ## Sequences of public operations -/

/-- A public operation on containers. -/
inductive Op where
  | default_construct (this : Nat)
  | value_construct (this : Nat) (cat : ValueCategory) (tid : Nat) (v : Bytes)
  | copy_construct (other this : Nat)
  | move_construct (other this : Nat)
  | copy_assign (this other : Nat)
  | move_assign (this other : Nat)
  | value_assign (this : Nat) (cat : ValueCategory) (tid : Nat) (v : Bytes)
  | invoke (this : Nat) (args : Args)
  | destroy (this : Nat)

/-- One public operation. -/
def step (Γ : TypeEnv) (IsMoveOnly : Bool) (s : Memory) : Op → Except Fault Memory
  | Op.default_construct this => Except.ok (FunctionBase.ctor_default s this)
  | Op.value_construct this cat tid v => FunctionBase.ctor_value Γ IsMoveOnly s this cat tid v
  | Op.copy_construct other this => FunctionBase.ctor_copy Γ IsMoveOnly s other this
  | Op.move_construct other this => FunctionBase.ctor_move Γ IsMoveOnly s other this
  | Op.copy_assign this other => FunctionBase.assign_copy Γ IsMoveOnly s this other
  | Op.move_assign this other => FunctionBase.assign_move Γ IsMoveOnly s this other
  | Op.value_assign this cat tid v => FunctionBase.assign_value Γ IsMoveOnly s this cat tid v
  | Op.invoke this args =>
    match FunctionBase.call Γ s this args with
    | Except.ok (_, s1) => Except.ok s1
    | Except.error e => Except.error e
  | Op.destroy this => FunctionBase.dtor Γ IsMoveOnly s this

/-- A sequence of public operations, run in order. -/
def run (Γ : TypeEnv) (IsMoveOnly : Bool) : List Op → Memory → Except Fault Memory
  | [], s => Except.ok s
  | op :: ops, s =>
    match step Γ IsMoveOnly s op with
    | Except.ok s1 => run Γ IsMoveOnly ops s1
    | Except.error e => Except.error e

/-- The state in which containers `0` and `1` hold 16-byte adders capturing `[5]` and `[9]`
in their buffers, containers `2` and `3` hold 17-byte adders capturing `[7]` and `[11]` in
heap blocks `0` and `1`, and every other container is empty. -/
def four_values : Memory :=
  { fn := fun c =>
      match c with
      | 0 => ⟨Ptr.buffer 0, some 1, some (CreateManageBlock ValueCategory.rvalue 1)⟩
      | 1 => ⟨Ptr.buffer 1, some 1, some (CreateManageBlock ValueCategory.lvalue 1)⟩
      | 2 => ⟨Ptr.heap 0, some 2, some (CreateManageBlock ValueCategory.rvalue 2)⟩
      | 3 => ⟨Ptr.heap 1, some 2, some (CreateManageBlock ValueCategory.lvalue 2)⟩
      | _ => ⟨Ptr.null, none, none⟩,
    buffer := fun c =>
      match c with
      | 0 => some ⟨1, [5]⟩
      | 1 => some ⟨1, [9]⟩
      | _ => none,
    heap := [some ⟨2, [7]⟩, some ⟨2, [11]⟩],
    trace := [Event.construct (Ptr.buffer 0) 1, Event.construct (Ptr.buffer 1) 1,
      Event.allocate 0, Event.construct (Ptr.heap 0) 2,
      Event.allocate 1, Event.construct (Ptr.heap 1) 2] }

end FunctionH

namespace FunctionH
open FunctionBase

/-! ## Auxiliary facts -/

theorem heap_of_is_heap {p : Ptr} (h : p.is_heap = true) : ∃ a, p = Ptr.heap a := by
  cases p <;> simp [Ptr.is_heap] at h
  exact ⟨_, rfl⟩

theorem live_heap_lt {s : Memory} {a : Nat} {o : Obj} (h : s.heap.getD a none = some o) :
    a < s.heap.length := by
  by_contra hge
  simp [List.getD_eq_getElem?_getD, List.getElem?_eq_none (not_lt.mp hge)] at h

@[simp] theorem deref_move_from_to (m : Bool) (b : BlockAddr) :
    (b.deref m).move_from_to = some b.tid := by
  cases m <;> rfl

@[simp] theorem deref_move_assignment_from_to (m : Bool) (b : BlockAddr) :
    (b.deref m).move_assignment_from_to = some b.tid := by
  cases m <;> rfl

@[simp] theorem deref_destroy (m : Bool) (b : BlockAddr) : (b.deref m).destroy = some b.tid := by
  cases m <;> rfl

@[simp] theorem deref_get_type (m : Bool) (b : BlockAddr) : (b.deref m).get_type = some b.tid := by
  cases m <;> rfl

@[simp] theorem deref_copy_from_to (b : BlockAddr) : (b.deref false).copy_from_to = some b.tid :=
  rfl

@[simp] theorem deref_copy_assignment_from_to (b : BlockAddr) :
    (b.deref false).copy_assignment_from_to = some b.tid := rfl

/-- The forwarding constructor establishes `Holds`: that predicate describes exactly the
containers that construction from a callable produces. -/
theorem ctor_value_holds (Γ : TypeEnv) (IsMoveOnly : Bool) (s : Memory) (c : Nat)
    (cat : ValueCategory) (tid : Nat) (v : Bytes) (h : accepts Γ IsMoveOnly tid = true) :
    ∃ s1, ctor_value Γ IsMoveOnly s c cat tid v = Except.ok s1 ∧ Holds Γ s1 c cat tid v := by
  by_cases hs : (Γ tid).size > BUFFER_SIZE <;>
    simp [ctor_value, h, place, hs, Holds, operator_new, placement_new,
      Memory.set_function_pointer, Memory.load, Memory.store, Memory.log, Ptr.is_heap]

/-- The default constructor establishes `Empty`. -/
theorem ctor_default_empty (s : Memory) (c : Nat) : Empty (ctor_default s c) c := by
  simp [Empty, ctor_default]

theorem four_values_holds_0 : Holds demo four_values 0 ValueCategory.rvalue 1 [5] := by
  simp [Holds, four_values, demo, adder, BUFFER_SIZE, CreateManageBlock, Memory.load]

theorem four_values_holds_1 : Holds demo four_values 1 ValueCategory.lvalue 1 [9] := by
  simp [Holds, four_values, demo, adder, BUFFER_SIZE, CreateManageBlock, Memory.load]

theorem four_values_holds_2 : Holds demo four_values 2 ValueCategory.rvalue 2 [7] := by
  simp [Holds, four_values, demo, adder, BUFFER_SIZE, CreateManageBlock, Memory.load, Ptr.is_heap]

theorem four_values_holds_3 : Holds demo four_values 3 ValueCategory.lvalue 2 [11] := by
  simp [Holds, four_values, demo, adder, BUFFER_SIZE, CreateManageBlock, Memory.load, Ptr.is_heap]

theorem four_values_empty_4 : Empty four_values 4 := rfl

end FunctionH

namespace FunctionH
open FunctionBase

/-! ## Construction and invocation -/

/-- Claim C1. For every concrete type that the forwarding constructor accepts, of any
size, every captured state, value category and argument tuple: the constructor returns,
the container it leaves is non-empty, and the call operator returns the result that the
callable itself gives on these arguments, not the empty-call error. -/
theorem C1_value_preservation (Γ : TypeEnv) (IsMoveOnly : Bool) (s : Memory) (c : Nat)
    (cat : ValueCategory) (tid : Nat) (v : Bytes) (args : Args)
    (h : accepts Γ IsMoveOnly tid = true) :
    ∃ s1, ctor_value Γ IsMoveOnly s c cat tid v = Except.ok s1 ∧
      to_bool s1 c = true ∧
      ∃ s2, call Γ s1 c args = Except.ok (((Γ tid).call v args).1, s2) := by
  refine ⟨_, by rw [ctor_value, if_pos h], ?_, ?_⟩
  · by_cases hs : (Γ tid).size > BUFFER_SIZE <;>
      simp [to_bool, place, hs, Memory.set_function_pointer, operator_new]
  · by_cases hs : (Γ tid).size > BUFFER_SIZE <;>
      simp [call, place, hs, Memory.set_function_pointer, operator_new, placement_new, Invoke,
        deref, Memory.load, Memory.store, Memory.log]

/-- The 17-byte adder capturing `[2, 3]`, stored on the heap, called with `[4]` gives `9`. -/
theorem C1_value_preservation_witness :
    accepts demo false 2 = true ∧
    ∃ s1, ctor_value demo false Memory.init 0 ValueCategory.rvalue 2 [2, 3] = Except.ok s1 ∧
      to_bool s1 0 = true ∧ ∃ s2, call demo s1 0 [4] = Except.ok (9, s2) :=
  ⟨rfl, C1_value_preservation demo false Memory.init 0 ValueCategory.rvalue 2 [2, 3] [4] rfl⟩

/-- Claim C2. A container built by the default constructor or by the `nullptr` constructor
is empty: `operator bool` is false, `== nullptr` is true, the three pointer members are
null, and the call operator raises `std::bad_function_call` for every argument tuple. -/
theorem C2_empty_by_default (Γ : TypeEnv) (s : Memory) (c : Nat) (args : Args) :
    (to_bool (ctor_default s c) c = false ∧ eq_nullptr (ctor_default s c) c = true ∧
      (ctor_default s c).fn c = ⟨Ptr.null, none, none⟩ ∧
      call Γ (ctor_default s c) c args = Except.error Fault.bad_function_call) ∧
    (to_bool (ctor_nullptr s c) c = false ∧ eq_nullptr (ctor_nullptr s c) c = true ∧
      (ctor_nullptr s c).fn c = ⟨Ptr.null, none, none⟩ ∧
      call Γ (ctor_nullptr s c) c args = Except.error Fault.bad_function_call) := by
  simp [to_bool, eq_nullptr, ctor_default, ctor_nullptr, call]

/-! ## Copy and move construction -/

/-- Move construction from a well-formed source. Let `A` be empty, with all three members
null, or hold a value (inline or on the heap), and let `B` be another container,
move-constructed from `A`. The constructor returns; afterwards every
member of `A` is null and destroying `A` changes nothing (no destroy operation is
called); `B` is empty exactly when `A` was; `B` has the invocation entry and the table
that `A` had; and for every argument tuple `B` returns what `A` returned before. -/
theorem move_construction_of_well_formed (Γ : TypeEnv) (IsMoveOnly : Bool) (s : Memory) (A B : Nat)
    (hAB : A ≠ B) (hA : Empty s A ∨ ∃ cat tid v, Holds Γ s A cat tid v) :
    ∃ s1, ctor_move Γ IsMoveOnly s A B = Except.ok s1 ∧
      s1.fn A = ⟨Ptr.null, none, none⟩ ∧
      dtor Γ IsMoveOnly s1 A = Except.ok s1 ∧
      to_bool s1 B = to_bool s A ∧
      (s1.fn B).invoke_pointer = (s.fn A).invoke_pointer ∧
      (s1.fn B).manage_block_pointer = (s.fn A).manage_block_pointer ∧
      ∀ args, result_of (call Γ s1 B args) = result_of (call Γ s A args) := by
  have hBA : B ≠ A := fun h => hAB h.symm
  rcases hA with hE | ⟨cat, tid, v, hi, hm, hl, hp⟩
  · simp only [Empty] at hE
    simp [ctor_move, Memory.set_manage_block_pointer, Memory.set_invoke_pointer, hAB, hBA, hE,
      dtor, to_bool, call, result_of]
  · by_cases hs : (Γ tid).size > BUFFER_SIZE
    · rw [if_pos hs] at hp
      obtain ⟨a, ha⟩ := heap_of_is_heap hp
      rw [ha] at hl
      simp [Memory.load] at hl
      simp [ctor_move, call_entry, CreateManageBlock, Move, CopyOrMove, hs,
        Memory.set_manage_block_pointer, Memory.set_invoke_pointer, Memory.set_function_pointer,
        hAB, hBA, dtor, to_bool, call, result_of, ha, hi, hm, Invoke, deref, Memory.load, hl]
    · rw [if_neg hs] at hp
      rw [hp] at hl
      simp [Memory.load] at hl
      simp [ctor_move, call_entry, CreateManageBlock, Move, CopyOrMove, hs,
        Memory.set_manage_block_pointer, Memory.set_invoke_pointer, Memory.set_function_pointer,
        hAB, hBA, dtor, to_bool, call, result_of, hp, hi, hm, Invoke, deref, Memory.load, hl,
        move_out, destruct, placement_new, Memory.store, Memory.log]

/-- Moving the inline adder of container `0` into container `4`, and moving the empty
container `4` into container `5`. -/
theorem move_construction_of_well_formed_example :
    (Holds demo four_values 0 ValueCategory.rvalue 1 [5] ∧
      ∃ s1, ctor_move demo true four_values 0 4 = Except.ok s1 ∧
        s1.fn 0 = ⟨Ptr.null, none, none⟩ ∧ dtor demo true s1 0 = Except.ok s1 ∧
        to_bool s1 4 = to_bool four_values 0) ∧
    (Empty four_values 4 ∧
      ∃ s1, ctor_move demo true four_values 4 5 = Except.ok s1 ∧
        s1.fn 4 = ⟨Ptr.null, none, none⟩ ∧ dtor demo true s1 4 = Except.ok s1 ∧
        to_bool s1 5 = to_bool four_values 4) :=
  ⟨⟨four_values_holds_0,
      (move_construction_of_well_formed demo true four_values 0 4 (by decide)
        (Or.inr ⟨_, _, _, four_values_holds_0⟩)).imp
        fun _ h => ⟨h.1, h.2.1, h.2.2.1, h.2.2.2.1⟩⟩,
    ⟨four_values_empty_4,
      (move_construction_of_well_formed demo true four_values 4 5 (by decide)
        (Or.inl four_values_empty_4)).imp
        fun _ h => ⟨h.1, h.2.1, h.2.2.1, h.2.2.2.1⟩⟩⟩

/-- Copy construction from a well-formed source. On the copy-capable variant, let `A` be
empty, with all three members null, or hold a value, and let `B` be another container,
copy-constructed from `A`. The constructor returns; the members of `A`
and the object at its active pointer are unchanged; `B` is empty exactly when `A` is; `B`
has the invocation entry and table of `A` and returns what `A` returns for every argument
tuple. When `A` is non-empty, the active pointer of `B` differs from that of `A` and is
the buffer of `B` or the block just allocated, the object there equals the object of
`A`, and overwriting the object of one container, directly or by invoking it, leaves the
object of the other as it was. -/
theorem copy_construction_of_well_formed (Γ : TypeEnv) (s : Memory) (A B : Nat)
    (hAB : A ≠ B) (hA : Empty s A ∨ ∃ cat tid v, Holds Γ s A cat tid v) :
    ∃ s1, ctor_copy Γ false s A B = Except.ok s1 ∧
      s1.fn A = s.fn A ∧
      s1.load (s.fn A).function_pointer = s.load (s.fn A).function_pointer ∧
      to_bool s1 B = to_bool s A ∧
      (s1.fn B).invoke_pointer = (s.fn A).invoke_pointer ∧
      (s1.fn B).manage_block_pointer = (s.fn A).manage_block_pointer ∧
      (∀ args, result_of (call Γ s1 B args) = result_of (call Γ s A args)) ∧
      (to_bool s A = true →
        (s1.fn B).function_pointer ≠ (s.fn A).function_pointer ∧
        ((s1.fn B).function_pointer = Ptr.buffer B ∨
          (s1.fn B).function_pointer = Ptr.heap s.heap.length) ∧
        s1.load (s1.fn B).function_pointer = s.load (s.fn A).function_pointer ∧
        (∀ o, (s1.store (s1.fn B).function_pointer o).load (s1.fn A).function_pointer =
          s1.load (s1.fn A).function_pointer) ∧
        (∀ o, (s1.store (s1.fn A).function_pointer o).load (s1.fn B).function_pointer =
          s1.load (s1.fn B).function_pointer) ∧
        (∀ args r s2, call Γ s1 B args = Except.ok (r, s2) →
          s2.load (s1.fn A).function_pointer = s1.load (s1.fn A).function_pointer) ∧
        (∀ args r s2, call Γ s1 A args = Except.ok (r, s2) →
          s2.load (s1.fn B).function_pointer = s1.load (s1.fn B).function_pointer)) := by
  have hBA : B ≠ A := fun h => hAB h.symm
  rcases hA with hE | ⟨cat, tid, v, hi, hm, hl, hp⟩
  · simp only [Empty] at hE
    simp [ctor_copy, hAB, hBA, hE, to_bool, call, result_of, Memory.load]
  · by_cases hs : (Γ tid).size > BUFFER_SIZE
    · rw [if_pos hs] at hp
      obtain ⟨a, ha⟩ := heap_of_is_heap hp
      rw [ha] at hl
      simp only [Memory.load] at hl
      have hlt : a < s.heap.length := live_heap_lt hl
      simp only [List.getD_eq_getElem?_getD] at hl
      have hne : ¬ s.heap.length = a := by omega
      have hne2 : ¬ a = s.heap.length := by omega
      simp [ctor_copy, call_entry, CreateManageBlock, Copy, CopyOrMove, hs,
        Memory.set_manage_block_pointer, Memory.set_invoke_pointer, Memory.set_function_pointer,
        hAB, hBA, to_bool, call, result_of, ha, hi, hm, Invoke, deref, Memory.load, hl,
        operator_new, Memory.store]
      simp [List.getElem?_append_left hlt, hl, hne, List.getElem?_set, hne2, List.getElem_set]
    · rw [if_neg hs] at hp
      rw [hp] at hl
      simp [Memory.load] at hl
      simp [ctor_copy, call_entry, CreateManageBlock, Copy, CopyOrMove, hs,
        Memory.set_manage_block_pointer, Memory.set_invoke_pointer, Memory.set_function_pointer,
        hAB, hBA, to_bool, call, result_of, hp, hi, hm, Invoke, deref, Memory.load, hl,
        placement_new, Memory.store, Memory.log]

/-- Copying the heap-stored adder of container `2` into container `4`: the copy lives in
the new block `2`, not in block `0`. -/
theorem copy_construction_of_well_formed_example :
    Holds demo four_values 2 ValueCategory.rvalue 2 [7] ∧
    ∃ s1, ctor_copy demo false four_values 2 4 = Except.ok s1 ∧
      s1.fn 2 = four_values.fn 2 ∧
      s1.load (four_values.fn 2).function_pointer =
        four_values.load (four_values.fn 2).function_pointer ∧
      to_bool s1 4 = to_bool four_values 2 :=
  ⟨four_values_holds_2,
    (copy_construction_of_well_formed demo four_values 2 4 (by decide)
      (Or.inr ⟨_, _, _, four_values_holds_2⟩)).imp
      fun _ h => ⟨h.1, h.2.1, h.2.2.1, h.2.2.2.1⟩⟩

/-- Claim C3, evaluated on the code. Container `0` is constructed from an inline adder and
copy-assigned from the default-constructed container `1`, which leaves it with a non-null
active pointer and a null table. Move-constructing container `2` from it skips the move
entry: container `0` keeps its non-null active pointer, so it is not empty afterwards and
its object stays live, while container `2` is empty although `operator bool` of the
source was true, and invoking container `2` raises `std::bad_function_call` where
invoking the source called through the null entry. -/
theorem C3_move_construction_defect :
    ∃ s0 s1, run demo false [Op.value_construct 0 ValueCategory.rvalue 1 [5],
        Op.default_construct 1, Op.copy_assign 0 1] Memory.init = Except.ok s0 ∧
      s0.fn 0 = ⟨Ptr.buffer 0, none, none⟩ ∧ to_bool s0 0 = true ∧
      call demo s0 0 [] = Except.error Fault.null_call ∧
      ctor_move demo false s0 0 2 = Except.ok s1 ∧
      s1.fn 0 = ⟨Ptr.buffer 0, none, none⟩ ∧ to_bool s1 0 = true ∧
      s1.buffer 0 = some ⟨1, [5]⟩ ∧
      s1.fn 2 = ⟨Ptr.null, none, none⟩ ∧ to_bool s1 2 = false ∧
      call demo s1 2 [] = Except.error Fault.bad_function_call :=
  ⟨_, _, rfl, rfl, by decide, rfl, rfl, rfl, by decide, rfl, rfl, by decide, rfl⟩

/-- Claim C4, evaluated on the code. Container `0` is constructed from an inline adder and
copy-assigned from the default-constructed container `1`, which leaves it with a non-null
active pointer and a null table. Copy-constructing container `2` from it skips the copy
entry: container `2` is empty while `operator bool` of the source is true, no copy of the
stored object is made, and invoking container `2` raises `std::bad_function_call` where
invoking the source calls through the null entry. -/
theorem C4_copy_construction_defect :
    ∃ s0 s1, run demo false [Op.value_construct 0 ValueCategory.rvalue 1 [5],
        Op.default_construct 1, Op.copy_assign 0 1] Memory.init = Except.ok s0 ∧
      s0.fn 0 = ⟨Ptr.buffer 0, none, none⟩ ∧ to_bool s0 0 = true ∧
      ctor_copy demo false s0 0 2 = Except.ok s1 ∧
      s1.fn 0 = s0.fn 0 ∧ to_bool s1 0 = true ∧
      s1.fn 2 = ⟨Ptr.null, none, none⟩ ∧ to_bool s1 2 = false ∧
      s1.buffer 2 = none ∧ s1.trace = s0.trace ∧
      call demo s1 0 [] = Except.error Fault.null_call ∧
      call demo s1 2 [] = Except.error Fault.bad_function_call :=
  ⟨_, _, rfl, rfl, by decide, rfl, rfl, by decide, rfl, by decide, rfl, rfl, rfl, rfl⟩

end FunctionH

namespace FunctionH
open FunctionBase

/-! ## Assignment between containers -/

/-- Claim C5, evaluated on the code. Copy-assigning the empty container `4` to container
`0`, which holds an inline adder, leaves container `0` with a non-null active pointer:
its `operator bool` is true while that of the source is false, its other two members are
null, and no destructor ran. Copy-assigning container `3` to container `2`, both holding
17-byte adders, leaves in container `2` the value that the constructor from `void*`
builds: container `3` returns `11` and container `2` returns `0`. -/
theorem C5_copy_assignment_defect :
    (∃ s1, assign_copy demo false four_values 0 4 = Except.ok s1 ∧
      to_bool four_values 4 = false ∧ to_bool s1 4 = false ∧ to_bool s1 0 = true ∧
      s1.fn 0 = ⟨Ptr.buffer 0, none, none⟩ ∧ s1.trace = four_values.trace) ∧
    (∃ s1, assign_copy demo false four_values 2 3 = Except.ok s1 ∧
      result_of (call demo four_values 3 []) = Except.ok 11 ∧
      result_of (call demo s1 3 []) = Except.ok 11 ∧
      result_of (call demo s1 2 []) = Except.ok 0) := by
  refine ⟨⟨_, rfl, ?_⟩, ⟨_, rfl, rfl, rfl, rfl⟩⟩
  decide

/-- Claim C6, evaluated on the code. Move-assigning the empty container `4` to container
`0`, which holds an inline adder, empties the source but leaves container `0` with a
non-null active pointer and a null invocation entry: its `operator bool` is true, and
invoking it calls through the null entry, where invoking the source before the move
raised `std::bad_function_call`. -/
theorem C6_move_assignment_defect :
    ∃ s1, assign_move demo true four_values 0 4 = Except.ok s1 ∧
      to_bool four_values 4 = false ∧
      call demo four_values 4 [] = Except.error Fault.bad_function_call ∧
      s1.fn 4 = ⟨Ptr.null, none, none⟩ ∧
      to_bool s1 0 = true ∧ s1.fn 0 = ⟨Ptr.buffer 0, none, none⟩ ∧
      call demo s1 0 [] = Except.error Fault.null_call :=
  ⟨_, rfl, by decide, rfl, rfl, by decide, rfl, rfl⟩

/-- Claim C7, evaluated on the code. Move self-assignment of container `2`, which holds a
heap-stored adder, destroys and deallocates the stored value and leaves the container
empty. Self-assignment of container `0`, which holds an inline adder, runs the destructor
of the stored value and then reads the destroyed object. Copy self-assignment of
container `2` destroys the stored value and replaces it by the value built from `void*`. -/
theorem C7_self_assignment_defect :
    (∃ s1, assign_move demo false four_values 2 2 = Except.ok s1 ∧
      s1.fn 2 = ⟨Ptr.null, none, none⟩ ∧ to_bool s1 2 = false ∧
      s1.trace = four_values.trace ++ [Event.destruct (Ptr.heap 0) 2, Event.deallocate 0,
        Event.allocate 2, Event.construct (Ptr.heap 2) 2]) ∧
    assign_move demo false four_values 0 0 = Except.error Fault.no_object ∧
    assign_copy demo false four_values 0 0 = Except.error Fault.no_object ∧
    (∃ s1, assign_copy demo false four_values 2 2 = Except.ok s1 ∧
      four_values.load (four_values.fn 2).function_pointer = some ⟨2, [7]⟩ ∧
      s1.load (s1.fn 2).function_pointer = some ⟨2, []⟩ ∧
      s1.trace = four_values.trace ++ [Event.destruct (Ptr.heap 0) 2, Event.deallocate 0,
        Event.allocate 2, Event.construct (Ptr.heap 2) 2]) :=
  ⟨⟨_, rfl, rfl, by decide, rfl⟩, rfl, rfl, ⟨_, rfl, rfl, rfl, rfl⟩⟩

/-! ## Assignment of a callable -/

/-- Claim C8. Let the forwarding assignment be called on container `c` with a callable of
an accepted type. If `c` holds a value placed by construction, the assignment returns and
the events it adds are: one call of the destroy entry of the previous table on the
previous active pointer, the destructor of the previous value, the deallocation of its
block when it was on the heap, and only then the allocation and construction of the new
value. If `c` is empty, the events added are those of the new value alone. In both cases
`c` is left non-empty, bound to the invocation entry and table of the new type, holding
the new value, and returning for every argument tuple what the callable returns. -/
theorem C8_assign_value (Γ : TypeEnv) (IsMoveOnly : Bool) (s : Memory) (c : Nat)
    (cat : ValueCategory) (tid : Nat) (v : Bytes)
    (h : accepts Γ IsMoveOnly tid = true) :
    (∀ cat0 tid0 v0, Holds Γ s c cat0 tid0 v0 →
      ∃ s1, assign_value Γ IsMoveOnly s c cat tid v = Except.ok s1 ∧
        s1.trace = s.trace ++
          ([Event.destroy_call tid0 (s.fn c).function_pointer,
            Event.destruct (s.fn c).function_pointer tid0] ++
           (match (s.fn c).function_pointer with
            | Ptr.heap a => [Event.deallocate a]
            | _ => [])) ++
          (if (Γ tid).size > BUFFER_SIZE then
            [Event.allocate s.heap.length, Event.construct (Ptr.heap s.heap.length) tid]
           else [Event.construct (Ptr.buffer c) tid]) ∧
        to_bool s1 c = true ∧
        (s1.fn c).invoke_pointer = some tid ∧
        (s1.fn c).manage_block_pointer = some (CreateManageBlock cat tid) ∧
        s1.load (s1.fn c).function_pointer = some ⟨tid, v⟩ ∧
        ∀ args, result_of (call Γ s1 c args) = Except.ok ((Γ tid).call v args).1) ∧
    (Empty s c →
      ∃ s1, assign_value Γ IsMoveOnly s c cat tid v = Except.ok s1 ∧
        s1.trace = s.trace ++
          (if (Γ tid).size > BUFFER_SIZE then
            [Event.allocate s.heap.length, Event.construct (Ptr.heap s.heap.length) tid]
           else [Event.construct (Ptr.buffer c) tid]) ∧
        to_bool s1 c = true ∧
        (s1.fn c).invoke_pointer = some tid ∧
        (s1.fn c).manage_block_pointer = some (CreateManageBlock cat tid) ∧
        s1.load (s1.fn c).function_pointer = some ⟨tid, v⟩ ∧
        ∀ args, result_of (call Γ s1 c args) = Except.ok ((Γ tid).call v args).1) := by
  constructor
  · rintro cat0 tid0 v0 ⟨hi, hm, hl, hp⟩
    by_cases hs0 : (Γ tid0).size > BUFFER_SIZE
    · rw [if_pos hs0] at hp
      obtain ⟨a, ha⟩ := heap_of_is_heap hp
      rw [ha] at hl
      simp only [Memory.load] at hl
      have hlt : a < s.heap.length := live_heap_lt hl
      simp only [List.getD_eq_getElem?_getD] at hl
      by_cases hs : (Γ tid).size > BUFFER_SIZE <;>
      simp [assign_value, h, call_destroy, Destroy, place, CreateManageBlock, hs, hs0,
        Memory.set_manage_block_pointer, Memory.set_invoke_pointer, Memory.set_function_pointer,
        to_bool, call, result_of, ha, hi, hm, Invoke, deref, Memory.load, hl, operator_new,
        Memory.store, operator_delete, destruct, Memory.log, placement_new]
    · rw [if_neg hs0] at hp
      rw [hp] at hl
      simp [Memory.load] at hl
      by_cases hs : (Γ tid).size > BUFFER_SIZE <;>
      simp [assign_value, h, call_destroy, Destroy, place, CreateManageBlock, hs, hs0,
        Memory.set_manage_block_pointer, Memory.set_invoke_pointer, Memory.set_function_pointer,
        to_bool, call, result_of, hp, hi, hm, Invoke, deref, Memory.load, hl, operator_new,
        Memory.store, operator_delete, destruct, Memory.log, placement_new]
  · intro hE
    simp only [Empty] at hE
    by_cases hs : (Γ tid).size > BUFFER_SIZE <;>
    simp [assign_value, h, place, CreateManageBlock, hs, hE,
      Memory.set_manage_block_pointer, Memory.set_invoke_pointer, Memory.set_function_pointer,
      to_bool, call, result_of, Invoke, deref, Memory.load, operator_new, Memory.store,
      Memory.log, placement_new]

/-- Assigning the 16-byte adder capturing `[3]` to container `2`, which holds a heap-stored
adder, and to the empty container `4`. -/
theorem C8_assign_value_witness :
    (accepts demo false 1 = true ∧ Holds demo four_values 2 ValueCategory.rvalue 2 [7] ∧
      ∃ s1, assign_value demo false four_values 2 ValueCategory.lvalue 1 [3] = Except.ok s1 ∧
        s1.trace = four_values.trace ++
          [Event.destroy_call 2 (Ptr.heap 0), Event.destruct (Ptr.heap 0) 2, Event.deallocate 0,
            Event.construct (Ptr.buffer 2) 1] ∧
        to_bool s1 2 = true) ∧
    (Empty four_values 4 ∧
      ∃ s1, assign_value demo false four_values 4 ValueCategory.lvalue 1 [3] = Except.ok s1 ∧
        s1.trace = four_values.trace ++ [Event.construct (Ptr.buffer 4) 1] ∧
        to_bool s1 4 = true) :=
  ⟨⟨rfl, four_values_holds_2,
      ((C8_assign_value demo false four_values 2 ValueCategory.lvalue 1 [3] rfl).1 _ _ _
        four_values_holds_2).imp fun _ h => ⟨h.1, h.2.1, h.2.2.1⟩⟩,
    ⟨four_values_empty_4,
      ((C8_assign_value demo false four_values 4 ValueCategory.lvalue 1 [3] rfl).2
        four_values_empty_4).imp fun _ h => ⟨h.1, h.2.1, h.2.2.1⟩⟩⟩

/-! ## The field invariant -/

/-- Claim C9, evaluated on the code. Constructing container `0` from an inline adder,
default-constructing container `1` and copy-assigning container `1` to container `0`
reaches a state in which the active pointer of container `0` is non-null while its
invocation entry and its table are null: the emptiness test reports non-empty, the call
operator calls through the null entry and `target_type` reads through the null table. -/
theorem C9_field_coherence_defect :
    ∃ s1, run demo false [Op.value_construct 0 ValueCategory.rvalue 1 [5],
        Op.default_construct 1, Op.copy_assign 0 1] Memory.init = Except.ok s1 ∧
      s1.fn 0 = ⟨Ptr.buffer 0, none, none⟩ ∧ to_bool s1 0 = true ∧
      call demo s1 0 [] = Except.error Fault.null_call ∧
      target_type false s1 0 = Except.error Fault.null_call :=
  ⟨_, rfl, rfl, by decide, rfl, rfl⟩

end FunctionH

namespace FunctionH
open FunctionBase

/-! ## The small-buffer boundary -/

/-- Claim C10. Fix an accepted concrete type, containers `A` and `B` that hold values of
it, and a third container `C`. Construction of `C` from a callable of the type stores the
value inline exactly when `sizeof` is at most 16 and on the heap exactly when it is 17
or more; it adds no allocation in the first case and one in the second, and destroying
`C` then adds no deallocation in the first case and one in the second. Every other path
that places or tears down a value of the type makes the same choice: the forwarding
assignment to `B`, copy and move construction of `C` from `A`, copy and move assignment
of `A` to `B` all return and leave the value inline exactly when `sizeof` is at most 16
and on the heap exactly when it is 17 or more, and destroying `A` deallocates exactly
when it is 17 or more. -/
theorem C10_sbo_boundary (Γ : TypeEnv) (IsMoveOnly : Bool) (s : Memory) (A B C : Nat)
    (catA catB cat : ValueCategory) (tid : Nat) (v w x : Bytes)
    (hacc : accepts Γ IsMoveOnly tid = true) (hAB : A ≠ B) (hAC : A ≠ C)
    (hA : Holds Γ s A catA tid v) (hB : Holds Γ s B catB tid w) :
    (∃ s1, ctor_value Γ IsMoveOnly s C cat tid x = Except.ok s1 ∧
      (stored_inline s1 C ↔ (Γ tid).size ≤ 16) ∧
      ((s1.fn C).function_pointer.is_heap = true ↔ 17 ≤ (Γ tid).size) ∧
      allocations s1.trace = allocations s.trace + (if (Γ tid).size ≤ 16 then 0 else 1) ∧
      ∃ s2, dtor Γ IsMoveOnly s1 C = Except.ok s2 ∧
        allocations s2.trace = allocations s1.trace ∧
        deallocations s2.trace =
          deallocations s1.trace + (if (Γ tid).size ≤ 16 then 0 else 1)) ∧
    (∃ s1, assign_value Γ IsMoveOnly s B cat tid x = Except.ok s1 ∧
      (stored_inline s1 B ↔ (Γ tid).size ≤ 16) ∧
      ((s1.fn B).function_pointer.is_heap = true ↔ 17 ≤ (Γ tid).size)) ∧
    (IsMoveOnly = false → ∃ s1, ctor_copy Γ IsMoveOnly s A C = Except.ok s1 ∧
      (stored_inline s1 C ↔ (Γ tid).size ≤ 16) ∧
      ((s1.fn C).function_pointer.is_heap = true ↔ 17 ≤ (Γ tid).size)) ∧
    (∃ s1, ctor_move Γ IsMoveOnly s A C = Except.ok s1 ∧
      (stored_inline s1 C ↔ (Γ tid).size ≤ 16) ∧
      ((s1.fn C).function_pointer.is_heap = true ↔ 17 ≤ (Γ tid).size)) ∧
    (IsMoveOnly = false → ∃ s1, assign_copy Γ IsMoveOnly s B A = Except.ok s1 ∧
      (stored_inline s1 B ↔ (Γ tid).size ≤ 16) ∧
      ((s1.fn B).function_pointer.is_heap = true ↔ 17 ≤ (Γ tid).size)) ∧
    (∃ s1, assign_move Γ IsMoveOnly s B A = Except.ok s1 ∧
      (stored_inline s1 B ↔ (Γ tid).size ≤ 16) ∧
      ((s1.fn B).function_pointer.is_heap = true ↔ 17 ≤ (Γ tid).size)) ∧
    (∃ s1, dtor Γ IsMoveOnly s A = Except.ok s1 ∧
      deallocations s1.trace =
        deallocations s.trace + (if (Γ tid).size ≤ 16 then 0 else 1)) := by
  have hBA : B ≠ A := fun h => hAB h.symm
  have hCA : C ≠ A := fun h => hAC h.symm
  obtain ⟨hiA, hmA, hlA, hpA⟩ := hA
  obtain ⟨hiB, hmB, hlB, hpB⟩ := hB
  by_cases hs : (Γ tid).size > BUFFER_SIZE
  · have h17 : 17 ≤ (Γ tid).size := hs
    have h16 : ¬ (Γ tid).size ≤ 16 := by simp only [BUFFER_SIZE] at hs; omega
    rw [if_pos hs] at hpA hpB
    obtain ⟨a, ha⟩ := heap_of_is_heap hpA
    obtain ⟨b, hb⟩ := heap_of_is_heap hpB
    rw [ha] at hlA
    rw [hb] at hlB
    simp only [Memory.load] at hlA hlB
    have hlta := live_heap_lt hlA
    have hltb := live_heap_lt hlB
    simp only [List.getD_eq_getElem?_getD] at hlA hlB
    refine ⟨?_, ?_, ?_, ?_, ?_, ?_, ?_⟩
    · simp [ctor_value, dtor, hacc, place, hs, h16, h17, stored_inline, operator_new,
        Memory.set_function_pointer, call_destroy, Destroy, Ptr.is_heap, allocations,
        deallocations, CreateManageBlock, operator_delete, destruct, deref, Memory.load,
        Memory.store, Memory.log]
    · simp [assign_value, hacc, place, hs, h16, h17, stored_inline, operator_new,
        Memory.set_function_pointer, Memory.set_invoke_pointer, Memory.set_manage_block_pointer,
        call_destroy, Destroy, Ptr.is_heap, CreateManageBlock, operator_delete, destruct,
        deref, Memory.load, Memory.store, Memory.log, hmB, hb, hlB]
    · intro hmo
      subst hmo
      simp [ctor_copy, hs, h16, h17, stored_inline, operator_new, Memory.set_function_pointer,
        call_entry, Copy, CopyOrMove, Ptr.is_heap, CreateManageBlock, deref, Memory.load,
        hAC, hCA, hmA, ha, hlA]
    · simp [ctor_move, hs, h16, h17, stored_inline, Memory.set_function_pointer,
        Memory.set_invoke_pointer, Memory.set_manage_block_pointer, call_entry, Move,
        CopyOrMove, Ptr.is_heap, CreateManageBlock, hAC, hCA, hmA, ha]
    · intro hmo
      subst hmo
      simp [assign_copy, hs, h16, h17, stored_inline, operator_new,
        Memory.set_function_pointer, Memory.set_invoke_pointer, Memory.set_manage_block_pointer,
        call_entry, CopyAssignment, Assignment, Ptr.is_heap, CreateManageBlock,
        operator_delete, destruct, deref, Memory.load, Memory.store, Memory.log,
        hAB, hBA, hmA, hb, hlB]
    · simp [assign_move, hs, h16, h17, stored_inline, operator_new,
        Memory.set_function_pointer, Memory.set_invoke_pointer, Memory.set_manage_block_pointer,
        call_entry, MoveAssignment, Assignment, Ptr.is_heap, CreateManageBlock,
        operator_delete, destruct, deref, Memory.load, Memory.store, Memory.log,
        hAB, hBA, hmA, hb, hlB]
    · simp [dtor, h16, hs, call_destroy, Destroy, deallocations, CreateManageBlock,
        operator_delete, destruct, deref, Memory.load, Memory.store, Memory.log, hmA, ha, hlA]
  · have h16 : (Γ tid).size ≤ 16 := by simp only [BUFFER_SIZE] at hs; omega
    have h17 : ¬ 17 ≤ (Γ tid).size := by omega
    rw [if_neg hs] at hpA hpB
    rw [hpA] at hlA
    rw [hpB] at hlB
    simp only [Memory.load] at hlA hlB
    refine ⟨?_, ?_, ?_, ?_, ?_, ?_, ?_⟩
    · simp [ctor_value, dtor, hacc, place, hs, h16, h17, stored_inline, placement_new,
        Memory.set_function_pointer, call_destroy, Destroy, Ptr.is_heap, allocations,
        deallocations, CreateManageBlock, destruct, deref, Memory.load, Memory.store,
        Memory.log]
    · simp [assign_value, hacc, place, hs, h16, h17, stored_inline, placement_new,
        Memory.set_function_pointer, Memory.set_invoke_pointer, Memory.set_manage_block_pointer,
        call_destroy, Destroy, Ptr.is_heap, CreateManageBlock, destruct, deref, Memory.load,
        Memory.store, Memory.log, hmB, hpB, hlB]
    · intro hmo
      subst hmo
      simp [ctor_copy, hs, h16, h17, stored_inline, placement_new, Memory.set_function_pointer,
        call_entry, Copy, CopyOrMove, Ptr.is_heap, CreateManageBlock, deref, Memory.load,
        Memory.store, Memory.log, hAC, hCA, hmA, hpA, hlA]
    · simp [ctor_move, hs, h16, h17, stored_inline, placement_new, Memory.set_function_pointer,
        Memory.set_invoke_pointer, Memory.set_manage_block_pointer, call_entry, Move,
        CopyOrMove, move_out, destruct, Ptr.is_heap, CreateManageBlock, deref, Memory.load,
        Memory.store, Memory.log, hAC, hCA, hmA, hpA, hlA]
    · intro hmo
      subst hmo
      simp [assign_copy, hs, h16, h17, stored_inline, placement_new,
        Memory.set_function_pointer, Memory.set_invoke_pointer, Memory.set_manage_block_pointer,
        call_entry, CopyAssignment, Assignment, Ptr.is_heap, CreateManageBlock, destruct,
        deref, Memory.load, Memory.store, Memory.log, hAB, hBA, hmA, hpB, hlA, hlB]
    · simp [assign_move, hs, h16, h17, stored_inline, placement_new,
        Memory.set_function_pointer, Memory.set_invoke_pointer, Memory.set_manage_block_pointer,
        call_entry, MoveAssignment, Assignment, move_out, Ptr.is_heap, CreateManageBlock,
        destruct, deref, Memory.load, Memory.store, Memory.log, hAB, hBA, hmA, hpB, hlA, hlB]
    · simp [dtor, h16, hs, call_destroy, Destroy, deallocations, CreateManageBlock,
        destruct, deref, Memory.load, Memory.store, Memory.log, hmA, hpA, hlA]

/-- The 16-byte adder is placed inline and the 17-byte adder on the heap, by the
constructor and by move assignment alike. -/
theorem C10_sbo_boundary_witness :
    (Holds demo four_values 0 ValueCategory.rvalue 1 [5] ∧
      Holds demo four_values 1 ValueCategory.lvalue 1 [9] ∧
      (∃ s1, ctor_value demo false four_values 4 ValueCategory.rvalue 1 [3] = Except.ok s1 ∧
        stored_inline s1 4) ∧
      (∃ s1, assign_move demo false four_values 1 0 = Except.ok s1 ∧ stored_inline s1 1)) ∧
    (Holds demo four_values 2 ValueCategory.rvalue 2 [7] ∧
      Holds demo four_values 3 ValueCategory.lvalue 2 [11] ∧
      (∃ s1, ctor_value demo false four_values 4 ValueCategory.rvalue 2 [3] = Except.ok s1 ∧
        (s1.fn 4).function_pointer.is_heap = true) ∧
      (∃ s1, assign_move demo false four_values 3 2 = Except.ok s1 ∧
        (s1.fn 3).function_pointer.is_heap = true)) :=
  ⟨⟨four_values_holds_0, four_values_holds_1,
      (C10_sbo_boundary demo false four_values 0 1 4 _ _ ValueCategory.rvalue 1 [5] [9] [3]
        rfl (by decide) (by decide) four_values_holds_0 four_values_holds_1).1.imp
        fun _ h => ⟨h.1, h.2.1.mpr (by decide)⟩,
      (C10_sbo_boundary demo false four_values 0 1 4 _ _ ValueCategory.rvalue 1 [5] [9] [3]
        rfl (by decide) (by decide) four_values_holds_0
        four_values_holds_1).2.2.2.2.2.1.imp
        fun _ h => ⟨h.1, h.2.1.mpr (by decide)⟩⟩,
    ⟨four_values_holds_2, four_values_holds_3,
      (C10_sbo_boundary demo false four_values 2 3 4 _ _ ValueCategory.rvalue 2 [7] [11] [3]
        rfl (by decide) (by decide) four_values_holds_2 four_values_holds_3).1.imp
        fun _ h => ⟨h.1, h.2.2.1.mpr (by decide)⟩,
      (C10_sbo_boundary demo false four_values 2 3 4 _ _ ValueCategory.rvalue 2 [7] [11] [3]
        rfl (by decide) (by decide) four_values_holds_2
        four_values_holds_3).2.2.2.2.2.1.imp
        fun _ h => ⟨h.1, h.2.2.mpr (by decide)⟩⟩⟩

end FunctionH

namespace FunctionH
open FunctionBase

/-! ## Introspection -/

/-- Claim C11. For every accepted concrete type and every value category of the argument,
the container that the forwarding constructor leaves is non-empty and `target_type`
returns the `typeid` of the decayed type. Hence any other construction from the same
concrete type gives an equal token, and construction from a different concrete type
gives a different one. Move construction from a container holding a value of the type
gives the destination the same token, and so does copy construction on the copy-capable
variant, which also leaves the token of the source unchanged. -/
theorem C11_type_identity (Γ : TypeEnv) (IsMoveOnly : Bool) (s : Memory) (c : Nat)
    (cat : ValueCategory) (tid : Nat) (v : Bytes)
    (h : accepts Γ IsMoveOnly tid = true) :
    (∃ s1, ctor_value Γ IsMoveOnly s c cat tid v = Except.ok s1 ∧
      to_bool s1 c = true ∧
      target_type IsMoveOnly s1 c = Except.ok (GetType tid) ∧
      (∀ s0 c0 cat0 v0, ∃ s2, ctor_value Γ IsMoveOnly s0 c0 cat0 tid v0 = Except.ok s2 ∧
        target_type IsMoveOnly s2 c0 = target_type IsMoveOnly s1 c) ∧
      (∀ s0 c0 cat0 tid0 v0, accepts Γ IsMoveOnly tid0 = true → tid0 ≠ tid →
        ∃ s2, ctor_value Γ IsMoveOnly s0 c0 cat0 tid0 v0 = Except.ok s2 ∧
          target_type IsMoveOnly s2 c0 ≠ target_type IsMoveOnly s1 c)) ∧
    (∀ s0 A B cat0 v0, A ≠ B → Holds Γ s0 A cat0 tid v0 →
      (∃ s2, ctor_move Γ IsMoveOnly s0 A B = Except.ok s2 ∧
        target_type IsMoveOnly s2 B = Except.ok (GetType tid)) ∧
      (IsMoveOnly = false → ∃ s2, ctor_copy Γ IsMoveOnly s0 A B = Except.ok s2 ∧
        target_type IsMoveOnly s2 B = Except.ok (GetType tid) ∧
        target_type IsMoveOnly s2 A = Except.ok (GetType tid))) := by
  constructor
  · refine ⟨_, by rw [ctor_value, if_pos h], ?_, ?_, ?_, ?_⟩
    · by_cases hs : (Γ tid).size > BUFFER_SIZE <;>
        simp [to_bool, place, hs, Memory.set_function_pointer, operator_new]
    · by_cases hs : (Γ tid).size > BUFFER_SIZE <;>
        simp [target_type, place, hs, Memory.set_function_pointer, operator_new, placement_new,
          Memory.store, Memory.log, CreateManageBlock, GetType]
    · intro s0 c0 cat0 v0
      refine ⟨_, by rw [ctor_value, if_pos h], ?_⟩
      by_cases hs : (Γ tid).size > BUFFER_SIZE <;>
        simp [target_type, place, hs, Memory.set_function_pointer, operator_new, placement_new,
          Memory.store, Memory.log, CreateManageBlock, GetType]
    · intro s0 c0 cat0 tid0 v0 h0 hne
      refine ⟨_, by rw [ctor_value, if_pos h0], ?_⟩
      by_cases hs : (Γ tid).size > BUFFER_SIZE <;>
      by_cases hs0 : (Γ tid0).size > BUFFER_SIZE <;>
        simp [target_type, place, hs, hs0, Memory.set_function_pointer, operator_new,
          placement_new, Memory.store, Memory.log, CreateManageBlock, GetType, hne]
  · rintro s0 A B cat0 v0 hAB ⟨hi, hm, hl, hp⟩
    have hBA : B ≠ A := fun h => hAB h.symm
    by_cases hs : (Γ tid).size > BUFFER_SIZE
    · rw [if_pos hs] at hp
      obtain ⟨a, ha⟩ := heap_of_is_heap hp
      rw [ha] at hl
      simp only [Memory.load, List.getD_eq_getElem?_getD] at hl
      constructor
      · simp [ctor_move, call_entry, CreateManageBlock, Move, CopyOrMove, hs, target_type,
          GetType, Memory.set_manage_block_pointer, Memory.set_invoke_pointer,
          Memory.set_function_pointer, hAB, hBA, ha, hi, hm]
      · intro hmo
        subst hmo
        simp [ctor_copy, call_entry, CreateManageBlock, Copy, CopyOrMove, hs, target_type,
          GetType, Memory.set_function_pointer, operator_new, deref, Memory.load,
          hAB, hBA, ha, hi, hm, hl]
    · rw [if_neg hs] at hp
      rw [hp] at hl
      simp only [Memory.load] at hl
      constructor
      · simp [ctor_move, call_entry, CreateManageBlock, Move, CopyOrMove, hs, target_type,
          GetType, Memory.set_manage_block_pointer, Memory.set_invoke_pointer,
          Memory.set_function_pointer, move_out, destruct, placement_new, deref, Memory.load,
          Memory.store, Memory.log, hAB, hBA, hp, hi, hm, hl]
      · intro hmo
        subst hmo
        simp [ctor_copy, call_entry, CreateManageBlock, Copy, CopyOrMove, hs, target_type,
          GetType, Memory.set_function_pointer, placement_new, deref, Memory.load,
          Memory.store, Memory.log, hAB, hBA, hp, hi, hm, hl]

/-- A 17-byte adder passed as a const lvalue has token `2`; the inline adder of container
`0`, of type `1`, keeps token `1` when moved or copied into container `4`. -/
theorem C11_type_identity_witness :
    (accepts demo false 2 = true ∧
      ∃ s1, ctor_value demo false Memory.init 0 ValueCategory.const_lvalue 2 [7] = Except.ok s1 ∧
        to_bool s1 0 = true ∧ target_type false s1 0 = Except.ok 2) ∧
    (Holds demo four_values 0 ValueCategory.rvalue 1 [5] ∧
      (∃ s2, ctor_move demo false four_values 0 4 = Except.ok s2 ∧
        target_type false s2 4 = Except.ok 1) ∧
      (∃ s2, ctor_copy demo false four_values 0 4 = Except.ok s2 ∧
        target_type false s2 4 = Except.ok 1 ∧ target_type false s2 0 = Except.ok 1)) :=
  ⟨⟨rfl,
      (C11_type_identity demo false Memory.init 0 ValueCategory.const_lvalue 2 [7] rfl).1.imp
        fun _ h => ⟨h.1, h.2.1, h.2.2.1⟩⟩,
    ⟨four_values_holds_0,
      ((C11_type_identity demo false Memory.init 0 ValueCategory.rvalue 1 [5] rfl).2
        four_values 0 4 _ _ (by decide) four_values_holds_0).1,
      ((C11_type_identity demo false Memory.init 0 ValueCategory.rvalue 1 [5] rfl).2
        four_values 0 4 _ _ (by decide) four_values_holds_0).2 rfl⟩⟩

/-- Claim C12. For every container, `f == nullptr` and `nullptr == f` are true exactly when
`function_pointer` is null, and `operator bool`, `f != nullptr` and `nullptr != f` are each
the negation of that. The five tests are functions of the state that return a `Bool`:
they return no new state and no fault. -/
theorem C12_emptiness_tests (s : Memory) (f : Nat) :
    (eq_nullptr s f = true ↔ (s.fn f).function_pointer = Ptr.null) ∧
    (nullptr_eq s f = true ↔ (s.fn f).function_pointer = Ptr.null) ∧
    to_bool s f = !(eq_nullptr s f) ∧
    ne_nullptr s f = !(eq_nullptr s f) ∧
    nullptr_ne s f = !(eq_nullptr s f) ∧
    nullptr_ne s f = !(nullptr_eq s f) := by
  simp [eq_nullptr, nullptr_eq, to_bool, ne_nullptr, nullptr_ne]

end FunctionH

namespace FunctionH
open FunctionBase

/-! ## Teardown in assignment between containers -/

/-- Claim C13, evaluated on the code. In `four_values`, containers `0` and `1` hold inline
values of type `1`, containers `2` and `3` heap-stored values of type `2`, and container
`4` is empty.
Move-assigning the empty container `4` to container `2` runs no teardown although the
destination held a value: the trace is unchanged and block `0` stays live.
Copy-assigning container `0` to the empty container `4` runs the destructor of the
source's type on the destination's buffer although the destination held nothing.
Copy-assigning container `2` to container `0` applies `delete` for the source's type to
the destination's inline buffer, and move-assigning container `0` to container `2` runs
the destructor of the source's type on the destination's unused buffer.
Copy-assigning container `0` to container `1`, of the same type, tears the old value down
inside `Assignment`, without a call of the table's destroy entry. -/
theorem C13_assignment_teardown_defect :
    (∃ s1, assign_move demo false four_values 2 4 = Except.ok s1 ∧
      to_bool four_values 2 = true ∧ s1.trace = four_values.trace ∧
      s1.load (Ptr.heap 0) = some ⟨2, [7]⟩) ∧
    to_bool four_values 4 = false ∧
    assign_copy demo false four_values 4 0 = Except.error Fault.no_object ∧
    destruct (four_values.set_manage_block_pointer 4 (four_values.fn 0).manage_block_pointer) 1
      (Ptr.buffer 4) = Except.error Fault.no_object ∧
    assign_copy demo false four_values 0 2 = Except.error Fault.bad_delete ∧
    assign_move demo false four_values 2 0 = Except.error Fault.no_object ∧
    (∃ s1, assign_copy demo false four_values 1 0 = Except.ok s1 ∧
      s1.trace = four_values.trace ++
        [Event.destruct (Ptr.buffer 1) 1, Event.construct (Ptr.buffer 1) 1] ∧
      destroy_calls s1.trace = destroy_calls four_values.trace) :=
  ⟨⟨_, rfl, by decide, rfl, rfl⟩, by decide, rfl, rfl, rfl, rfl, ⟨_, rfl, rfl, by decide⟩⟩

/-- Claim C14, evaluated on the code. Two containers are constructed from inline values of
one type, the first is move-assigned to the second, and both are destroyed: three
objects were constructed and two destructors ran, and the moved-from object in the
buffer of the source is still live. A container holding a heap-stored value is
move-assigned from an empty one and both are destroyed: the block is never deallocated
and its object never destroyed. Copy-assigning a container holding an inline value to an
empty one runs a destructor on a buffer that holds no object. -/
theorem C14_exactly_once_defect :
    (∃ s1, run demo false [Op.value_construct 0 ValueCategory.rvalue 1 [5],
        Op.value_construct 1 ValueCategory.rvalue 1 [9], Op.move_assign 1 0,
        Op.destroy 0, Op.destroy 1] Memory.init = Except.ok s1 ∧
      s1.trace = [Event.construct (Ptr.buffer 0) 1, Event.construct (Ptr.buffer 1) 1,
        Event.destruct (Ptr.buffer 1) 1, Event.construct (Ptr.buffer 1) 1,
        Event.destroy_call 1 (Ptr.buffer 1), Event.destruct (Ptr.buffer 1) 1] ∧
      constructions s1.trace = 3 ∧ destructions s1.trace = 2 ∧
      s1.buffer 0 = some ⟨1, []⟩) ∧
    (∃ s1, run demo true [Op.value_construct 0 ValueCategory.rvalue 2 [7],
        Op.default_construct 1, Op.move_assign 0 1,
        Op.destroy 0, Op.destroy 1] Memory.init = Except.ok s1 ∧
      s1.trace = [Event.allocate 0, Event.construct (Ptr.heap 0) 2] ∧
      s1.load (Ptr.heap 0) = some ⟨2, [7]⟩) ∧
    run demo false [Op.value_construct 0 ValueCategory.rvalue 1 [5], Op.default_construct 1,
      Op.copy_assign 1 0] Memory.init = Except.error Fault.no_object :=
  ⟨⟨_, rfl, rfl, by decide, by decide, rfl⟩, ⟨_, rfl, rfl, rfl⟩, rfl⟩

/-! ## Relocation by the move constructor -/

/-- Claim C15. Let `A` hold a value of a concrete type and let `B` be another container,
move-constructed from `A`. The constructor returns, the active pointer of `A` is null
afterwards and `B` holds the value. If `sizeof` exceeds the buffer, the active pointer of
`B` is the former active pointer of `A` and heap, buffers and trace are unchanged: no
block is allocated and no constructor runs. Otherwise the active pointer of `B` is its
own buffer, the events added are the construction of the object there followed by one
destructor run on the buffer of `A`, which then holds no object, and the heap is
unchanged. -/
theorem C15_move_relocation (Γ : TypeEnv) (IsMoveOnly : Bool) (s : Memory) (A B : Nat)
    (cat : ValueCategory) (tid : Nat) (v : Bytes)
    (hAB : A ≠ B) (hA : Holds Γ s A cat tid v) :
    ∃ s1, ctor_move Γ IsMoveOnly s A B = Except.ok s1 ∧
      (s1.fn A).function_pointer = Ptr.null ∧
      s1.load (s1.fn B).function_pointer = some ⟨tid, v⟩ ∧
      (BUFFER_SIZE < (Γ tid).size →
        (s1.fn B).function_pointer = (s.fn A).function_pointer ∧
        s1.heap = s.heap ∧ s1.buffer = s.buffer ∧ s1.trace = s.trace) ∧
      ((Γ tid).size ≤ BUFFER_SIZE →
        (s1.fn B).function_pointer = Ptr.buffer B ∧
        s1.buffer A = none ∧ s1.heap = s.heap ∧
        s1.trace = s.trace ++
          [Event.construct (Ptr.buffer B) tid, Event.destruct (Ptr.buffer A) tid]) := by
  have hBA : B ≠ A := fun h => hAB h.symm
  obtain ⟨hi, hm, hl, hp⟩ := hA
  by_cases hs : (Γ tid).size > BUFFER_SIZE
  · have hle : ¬ (Γ tid).size ≤ BUFFER_SIZE := by omega
    rw [if_pos hs] at hp
    obtain ⟨a, ha⟩ := heap_of_is_heap hp
    rw [ha] at hl
    simp only [Memory.load, List.getD_eq_getElem?_getD] at hl
    simp [ctor_move, call_entry, CreateManageBlock, Move, CopyOrMove, hs, hle,
      Memory.set_manage_block_pointer, Memory.set_invoke_pointer, Memory.set_function_pointer,
      Memory.load, hAB, hBA, ha, hi, hm, hl]
  · have hle : (Γ tid).size ≤ BUFFER_SIZE := by omega
    rw [if_neg hs] at hp
    rw [hp] at hl
    simp only [Memory.load] at hl
    simp [ctor_move, call_entry, CreateManageBlock, Move, CopyOrMove, hs, hle,
      Memory.set_manage_block_pointer, Memory.set_invoke_pointer, Memory.set_function_pointer,
      move_out, destruct, placement_new, deref, Memory.load, Memory.store, Memory.log,
      hAB, hBA, hp, hi, hm, hl]

/-- Moving the heap-stored adder of container `2` hands block `0` to container `4` without
an event; moving the inline adder of container `0` constructs in the buffer of container
`4` and destroys the object in the buffer of container `0`. -/
theorem C15_move_relocation_witness :
    (Holds demo four_values 2 ValueCategory.rvalue 2 [7] ∧
      ∃ s1, ctor_move demo true four_values 2 4 = Except.ok s1 ∧
        (s1.fn 2).function_pointer = Ptr.null ∧
        (s1.fn 4).function_pointer = Ptr.heap 0 ∧ s1.trace = four_values.trace) ∧
    (Holds demo four_values 0 ValueCategory.rvalue 1 [5] ∧
      ∃ s1, ctor_move demo true four_values 0 4 = Except.ok s1 ∧
        (s1.fn 0).function_pointer = Ptr.null ∧
        (s1.fn 4).function_pointer = Ptr.buffer 4 ∧
        s1.trace = four_values.trace ++
          [Event.construct (Ptr.buffer 4) 1, Event.destruct (Ptr.buffer 0) 1]) :=
  ⟨⟨four_values_holds_2,
      (C15_move_relocation demo true four_values 2 4 _ _ _ (by decide)
        four_values_holds_2).imp
        fun _ h => ⟨h.1, h.2.1, (h.2.2.2.1 (by decide)).1, (h.2.2.2.1 (by decide)).2.2.2⟩⟩,
    ⟨four_values_holds_0,
      (C15_move_relocation demo true four_values 0 4 _ _ _ (by decide)
        four_values_holds_0).imp
        fun _ h => ⟨h.1, h.2.1, (h.2.2.2.2 (by decide)).1, (h.2.2.2.2 (by decide)).2.2.2⟩⟩⟩

end FunctionH

namespace FunctionH
open FunctionBase

/-! ## Operation tables -/

/-- Claim C16. For every concrete type, the table built on the move-only variant has null
copy entries and non-null move, move-assignment, destroy and type entries, and the table
built on the copy-capable variant has all six entries non-null. Hence in every table of
either variant the four entries that move construction, move assignment, the forwarding
assignment, the destructor and `target_type` call are non-null, and on the copy-capable
variant so are the two copy entries; on the move-only variant the copy constructor and
the copy assignment are rejected by their `requires` clause. -/
theorem C16_variant_gating (Γ : TypeEnv) (s : Memory) (A B : Nat) (cat : ValueCategory)
    (tid : Nat) (IsMoveOnly : Bool) (b : BlockAddr) :
    (CreateManageBlock cat tid).deref true =
      { copy_from_to := none, copy_assignment_from_to := none,
        move_from_to := some tid, move_assignment_from_to := some tid,
        destroy := some tid, get_type := some tid } ∧
    (CreateManageBlock cat tid).deref false =
      { copy_from_to := some tid, copy_assignment_from_to := some tid,
        move_from_to := some tid, move_assignment_from_to := some tid,
        destroy := some tid, get_type := some tid } ∧
    ((b.deref IsMoveOnly).move_from_to ≠ none ∧
      (b.deref IsMoveOnly).move_assignment_from_to ≠ none ∧
      (b.deref IsMoveOnly).destroy ≠ none ∧
      (b.deref IsMoveOnly).get_type ≠ none) ∧
    (IsMoveOnly = false →
      (b.deref IsMoveOnly).copy_from_to ≠ none ∧
      (b.deref IsMoveOnly).copy_assignment_from_to ≠ none) ∧
    ctor_copy Γ true s A B = Except.error Fault.constraint_not_satisfied ∧
    assign_copy Γ true s A B = Except.error Fault.constraint_not_satisfied := by
  refine ⟨rfl, rfl, ?_, ?_, rfl, rfl⟩
  · cases IsMoveOnly <;> simp [BlockAddr.deref, ManageBlock.ctor]
  · intro hmo
    subst hmo
    simp [BlockAddr.deref, ManageBlock.ctor]

/-- Claim C17 as stated fails: two containers constructed from the same 16-byte adder type,
one from an lvalue and one from an rvalue, refer to different table objects. -/
theorem C17_one_table_counterexample :
    ∃ s1 s2, ctor_value demo false Memory.init 0 ValueCategory.lvalue 1 [5] = Except.ok s1 ∧
      ctor_value demo false s1 1 ValueCategory.rvalue 1 [5] = Except.ok s2 ∧
      (s2.fn 0).manage_block_pointer = some (CreateManageBlock ValueCategory.lvalue 1) ∧
      (s2.fn 1).manage_block_pointer = some (CreateManageBlock ValueCategory.rvalue 1) ∧
      (s2.fn 0).manage_block_pointer ≠ (s2.fn 1).manage_block_pointer :=
  ⟨_, _, rfl, rfl, rfl, rfl, by decide⟩

/-- The forwarding constructor binds the table that `CreateManageBlock` keeps for the
deduced type of its argument. -/
theorem ctor_value_table (Γ : TypeEnv) (IsMoveOnly : Bool) (s : Memory) (c : Nat)
    (cat : ValueCategory) (tid : Nat) (v : Bytes) (h : accepts Γ IsMoveOnly tid = true) :
    ∃ s1, ctor_value Γ IsMoveOnly s c cat tid v = Except.ok s1 ∧
      (s1.fn c).manage_block_pointer = some (CreateManageBlock cat tid) := by
  refine ⟨_, by rw [ctor_value, if_pos h], ?_⟩
  by_cases hs : (Γ tid).size > BUFFER_SIZE <;>
    simp [place, hs, Memory.set_function_pointer, operator_new, placement_new, Memory.store,
      Memory.log]

/-- The forwarding assignment to a container that has no table or holds a value binds the
table that `CreateManageBlock` keeps for the deduced type of its argument. -/
theorem assign_value_table (Γ : TypeEnv) (IsMoveOnly : Bool) (s : Memory) (c : Nat)
    (cat : ValueCategory) (tid : Nat) (v : Bytes) (h : accepts Γ IsMoveOnly tid = true)
    (hc : (s.fn c).manage_block_pointer = none ∨ ∃ catp tidp vp, Holds Γ s c catp tidp vp) :
    ∃ s2, assign_value Γ IsMoveOnly s c cat tid v = Except.ok s2 ∧
      (s2.fn c).manage_block_pointer = some (CreateManageBlock cat tid) := by
  rcases hc with hE | ⟨catp, tidp, vp, hi, hm, hl, hp⟩
  · by_cases hs : (Γ tid).size > BUFFER_SIZE <;>
    simp [assign_value, h, place, hs, hE, Memory.set_manage_block_pointer,
      Memory.set_invoke_pointer, Memory.set_function_pointer, operator_new, placement_new,
      Memory.store, Memory.log]
  · by_cases hsp : (Γ tidp).size > BUFFER_SIZE
    · rw [if_pos hsp] at hp
      obtain ⟨a, ha⟩ := heap_of_is_heap hp
      rw [ha] at hl
      simp only [Memory.load, List.getD_eq_getElem?_getD] at hl
      by_cases hs : (Γ tid).size > BUFFER_SIZE <;>
      simp [assign_value, h, call_destroy, Destroy, place, CreateManageBlock, hs, hsp,
        Memory.set_manage_block_pointer, Memory.set_invoke_pointer,
        Memory.set_function_pointer, ha, hm, deref, Memory.load, hl, operator_new,
        Memory.store, operator_delete, destruct, Memory.log, placement_new]
    · rw [if_neg hsp] at hp
      rw [hp] at hl
      simp only [Memory.load] at hl
      by_cases hs : (Γ tid).size > BUFFER_SIZE <;>
      simp [assign_value, h, call_destroy, Destroy, place, CreateManageBlock, hs, hsp,
        Memory.set_manage_block_pointer, Memory.set_invoke_pointer,
        Memory.set_function_pointer, hp, hm, deref, Memory.load, hl, operator_new,
        Memory.store, destruct, Memory.log, placement_new]

/-- Claim C17, amended. Let one container be constructed and another, which has no table or
holds a value, be value-assigned from callables of the same accepted concrete type through
argument expressions of the same form, so that the deduced type of the forwarding
reference is the same. Both operations return and both containers refer to the one table
that `CreateManageBlock` keeps for that deduced type; so does every other container
constructed, and every other container value-assigned, from that type and form. -/
theorem C17_table_per_deduced_type (Γ : TypeEnv) (IsMoveOnly : Bool) (s0 s : Memory)
    (c0 c : Nat) (cat : ValueCategory) (tid : Nat) (v0 v : Bytes)
    (h : accepts Γ IsMoveOnly tid = true)
    (hc : (s.fn c).manage_block_pointer = none ∨ ∃ catp tidp vp, Holds Γ s c catp tidp vp) :
    ∃ s1 s2, ctor_value Γ IsMoveOnly s0 c0 cat tid v0 = Except.ok s1 ∧
      assign_value Γ IsMoveOnly s c cat tid v = Except.ok s2 ∧
      (s1.fn c0).manage_block_pointer = some (CreateManageBlock cat tid) ∧
      (s2.fn c).manage_block_pointer = some (CreateManageBlock cat tid) ∧
      (s1.fn c0).manage_block_pointer = (s2.fn c).manage_block_pointer ∧
      (∀ sb cb vb, ∃ s3, ctor_value Γ IsMoveOnly sb cb cat tid vb = Except.ok s3 ∧
        (s3.fn cb).manage_block_pointer = (s1.fn c0).manage_block_pointer) ∧
      (∀ sb cb vb,
        ((sb.fn cb).manage_block_pointer = none ∨ ∃ catp tidp vp, Holds Γ sb cb catp tidp vp) →
        ∃ s3, assign_value Γ IsMoveOnly sb cb cat tid vb = Except.ok s3 ∧
          (s3.fn cb).manage_block_pointer = (s2.fn c).manage_block_pointer) := by
  obtain ⟨s1, h1, hm1⟩ := ctor_value_table Γ IsMoveOnly s0 c0 cat tid v0 h
  obtain ⟨s2, h2, hm2⟩ := assign_value_table Γ IsMoveOnly s c cat tid v h hc
  refine ⟨s1, s2, h1, h2, hm1, hm2, by rw [hm1, hm2], ?_, ?_⟩
  · intro sb cb vb
    obtain ⟨s3, h3, hm3⟩ := ctor_value_table Γ IsMoveOnly sb cb cat tid vb h
    exact ⟨s3, h3, by rw [hm3, hm1]⟩
  · intro sb cb vb hb
    obtain ⟨s3, h3, hm3⟩ := assign_value_table Γ IsMoveOnly sb cb cat tid vb h hb
    exact ⟨s3, h3, by rw [hm3, hm2]⟩

/-- Constructing container `5` from a const rvalue of the 17-byte adder and assigning a
const rvalue of the same type to container `0`, which holds an inline adder: one table. -/
theorem C17_table_per_deduced_type_witness :
    accepts demo false 2 = true ∧ Holds demo four_values 0 ValueCategory.rvalue 1 [5] ∧
    ∃ s1 s2, ctor_value demo false four_values 5 ValueCategory.const_rvalue 2 [3] = Except.ok s1 ∧
      assign_value demo false four_values 0 ValueCategory.const_rvalue 2 [3] = Except.ok s2 ∧
      (s1.fn 5).manage_block_pointer = (s2.fn 0).manage_block_pointer :=
  ⟨rfl, four_values_holds_0,
    (C17_table_per_deduced_type demo false four_values four_values 5 0
      ValueCategory.const_rvalue 2 [3] [3] rfl
      (Or.inr ⟨_, _, _, four_values_holds_0⟩)).imp
      fun _ h1 => h1.imp fun _ h => ⟨h.1, h.2.1, h.2.2.2.2.1⟩⟩

/-! ## Assignment of a reference wrapper -/

theorem fn_store (s : Memory) (p : Ptr) (o : Option Obj) : (s.store p o).fn = s.fn := by
  cases p <;> rfl

theorem load_store_ne (s : Memory) (p q : Ptr) (o : Option Obj) (h : p ≠ q) :
    (s.store p o).load q = s.load q := by
  cases p <;> cases q <;> simp [Memory.store, Memory.load] at h ⊢
  · rename_i a b
    simp [Function.update, Ne.symm h]
  · rename_i a b
    simp [List.getElem?_set, h]

/-- Overwriting storage other than the active pointer of a container does not change what
the container returns. -/
theorem result_of_call_store (Γ : TypeEnv) (s : Memory) (c : Nat) (p : Ptr) (o : Option Obj)
    (args : Args) (h : p ≠ (s.fn c).function_pointer) :
    result_of (call Γ (s.store p o) c args) = result_of (call Γ s c args) := by
  simp only [call, fn_store]
  by_cases hn : (s.fn c).function_pointer = Ptr.null
  · simp [hn, result_of]
  · simp only [hn, if_false]
    cases hi : (s.fn c).invoke_pointer with
    | none => rfl
    | some tid =>
      simp only [Invoke, deref, load_store_ne s p _ o h]
      cases hl : s.load (s.fn c).function_pointer with
      | none => rfl
      | some ob =>
        by_cases ht : ob.tid = tid <;> simp [ht, result_of]

/-- Claim C18. Assigning a reference wrapper of a callable `g` gives, on every state, the
result of assigning `g` itself as an lvalue: the same state, teardown events and faults
included. When the type of `g` is accepted and the container is empty or holds a value, the
assignment returns; the container is bound to the invocation entry and the table of the
type of `g`; `target_type` is the token of that type and of no other type, the wrapper
type included; the stored object is a copy of `g` in the container's own buffer or in the
block just allocated; the container returns what `g` returned at the assignment; and
writing to any storage other than the container's active pointer, such as `g` itself,
leaves the results of the container unchanged. -/
theorem C18_reference_wrapper (Γ : TypeEnv) (IsMoveOnly : Bool) (s : Memory) (c : Nat)
    (is_const : Bool) (tid : Nat) (v : Bytes)
    (h : accepts Γ IsMoveOnly tid = true)
    (hc : Empty s c ∨ ∃ catp tidp vp, Holds Γ s c catp tidp vp) :
    assign_reference_wrapper Γ IsMoveOnly s c is_const tid v =
      assign_value Γ IsMoveOnly s c (lvalue_category is_const) tid v ∧
    ∃ s1, assign_reference_wrapper Γ IsMoveOnly s c is_const tid v = Except.ok s1 ∧
      (s1.fn c).invoke_pointer = some tid ∧
      (s1.fn c).manage_block_pointer =
        some (CreateManageBlock (lvalue_category is_const) tid) ∧
      target_type IsMoveOnly s1 c = Except.ok (GetType tid) ∧
      (∀ w, w ≠ tid → target_type IsMoveOnly s1 c ≠ Except.ok (GetType w)) ∧
      ((s1.fn c).function_pointer = Ptr.buffer c ∨
        (s1.fn c).function_pointer = Ptr.heap s.heap.length) ∧
      s1.load (s1.fn c).function_pointer = some ⟨tid, v⟩ ∧
      (∀ args, result_of (call Γ s1 c args) = Except.ok ((Γ tid).call v args).1) ∧
      (∀ p o args, p ≠ (s1.fn c).function_pointer →
        result_of (call Γ (s1.store p o) c args) = result_of (call Γ s1 c args)) := by
  refine ⟨rfl, ?_⟩
  have main : ∃ s1, assign_reference_wrapper Γ IsMoveOnly s c is_const tid v = Except.ok s1 ∧
      (s1.fn c).invoke_pointer = some tid ∧
      (s1.fn c).manage_block_pointer =
        some (CreateManageBlock (lvalue_category is_const) tid) ∧
      target_type IsMoveOnly s1 c = Except.ok (GetType tid) ∧
      ((s1.fn c).function_pointer = Ptr.buffer c ∨
        (s1.fn c).function_pointer = Ptr.heap s.heap.length) ∧
      s1.load (s1.fn c).function_pointer = some ⟨tid, v⟩ ∧
      (∀ args, result_of (call Γ s1 c args) = Except.ok ((Γ tid).call v args).1) := by
    rcases hc with hE | ⟨catp, tidp, vp, hi, hm, hl, hp⟩
    · simp only [Empty] at hE
      by_cases hs : (Γ tid).size > BUFFER_SIZE <;>
      simp [assign_reference_wrapper, assign_value, h, place, hs, hE, target_type, GetType,
        Memory.set_manage_block_pointer, Memory.set_invoke_pointer, Memory.set_function_pointer,
        operator_new, placement_new, CreateManageBlock, call, result_of, Invoke, deref,
        Memory.load, Memory.store, Memory.log]
    · by_cases hsp : (Γ tidp).size > BUFFER_SIZE
      · rw [if_pos hsp] at hp
        obtain ⟨a, ha⟩ := heap_of_is_heap hp
        rw [ha] at hl
        simp only [Memory.load, List.getD_eq_getElem?_getD] at hl
        by_cases hs : (Γ tid).size > BUFFER_SIZE <;>
        simp [assign_reference_wrapper, assign_value, h, call_destroy, Destroy, place,
          CreateManageBlock, hs, hsp, target_type, GetType,
          Memory.set_manage_block_pointer, Memory.set_invoke_pointer,
          Memory.set_function_pointer, ha, hm, deref, Memory.load, hl, operator_new,
          Memory.store, operator_delete, destruct, Memory.log, placement_new, call, result_of,
          Invoke]
      · rw [if_neg hsp] at hp
        rw [hp] at hl
        simp only [Memory.load] at hl
        by_cases hs : (Γ tid).size > BUFFER_SIZE <;>
        simp [assign_reference_wrapper, assign_value, h, call_destroy, Destroy, place,
          CreateManageBlock, hs, hsp, target_type, GetType,
          Memory.set_manage_block_pointer, Memory.set_invoke_pointer,
          Memory.set_function_pointer, hp, hm, deref, Memory.load, hl, operator_new,
          Memory.store, destruct, Memory.log, placement_new, call, result_of, Invoke]
  obtain ⟨s1, h1, h2, h3, h4, h5, h6, h7⟩ := main
  refine ⟨s1, h1, h2, h3, h4, ?_, h5, h6, h7,
    fun p o args hp => result_of_call_store Γ s1 c p o args hp⟩
  intro w hw
  rw [h4]
  simp only [GetType, ne_eq, Except.ok.injEq]
  exact fun e => hw e.symm

/-- Assigning a reference wrapper of the 17-byte adder capturing `[3]` to container `0`,
which holds an inline adder: the container ends with type token `2` and the copy in the new
block `2`. -/
theorem C18_reference_wrapper_witness :
    accepts demo false 2 = true ∧ Holds demo four_values 0 ValueCategory.rvalue 1 [5] ∧
    ∃ s1, assign_reference_wrapper demo false four_values 0 false 2 [3] = Except.ok s1 ∧
      (s1.fn 0).invoke_pointer = some 2 ∧
      (s1.fn 0).manage_block_pointer = some (CreateManageBlock ValueCategory.lvalue 2) ∧
      target_type false s1 0 = Except.ok 2 :=
  ⟨rfl, four_values_holds_0,
    (C18_reference_wrapper demo false four_values 0 false 2 [3] rfl
      (Or.inr ⟨_, _, _, four_values_holds_0⟩)).2.imp
      fun _ h => ⟨h.1, h.2.1, h.2.2.1, h.2.2.2.1⟩⟩

end FunctionH
